import Mathlib

/-!
Shallow embedding of the session/object engine of `src/keychain_pkcs11.c`
(a PKCS#11 bridge onto the macOS Security framework), together with proofs
about its entry points.  Pure data and control flow of the C functions are
translated directly; calls into the host Security framework (key blocks,
encryption, signatures, the local-authentication primitive) are passed in
as explicit oracle arguments, and the static mechanism/parameter tables
(which live outside this translation unit and are treated as data) are
passed in as list parameters.
-/

namespace KeychainPKCS11

/-! ### PKCS#11 constants (values from the Cryptoki v2.40 headers) -/

def CK_UNAVAILABLE_INFORMATION : Nat := 2 ^ 64 - 1

def CKZ_DATA_SPECIFIED : Nat := 1

def CKF_ENCRYPT : Nat := 0x100

def CKF_DECRYPT : Nat := 0x200

def CKF_SIGN : Nat := 0x800

def CKF_VERIFY : Nat := 0x2000

def CKO_CERTIFICATE : Nat := 1

def CKO_PUBLIC_KEY : Nat := 2

def CKO_PRIVATE_KEY : Nat := 3

def CKC_X_509 : Nat := 0

def CKA_CLASS : Nat := 0x0

def CKA_TOKEN : Nat := 0x1

def CKA_PRIVATE : Nat := 0x2

def CKA_LABEL : Nat := 0x3

def CKA_VALUE : Nat := 0x11

def CKA_CERTIFICATE_TYPE : Nat := 0x80

def CKA_ISSUER : Nat := 0x81

def CKA_SERIAL_NUMBER : Nat := 0x82

def CKA_KEY_TYPE : Nat := 0x100

def CKA_SUBJECT : Nat := 0x101

def CKA_ID : Nat := 0x102

def CKA_SENSITIVE : Nat := 0x103

def CKA_ENCRYPT : Nat := 0x104

def CKA_DECRYPT : Nat := 0x105

def CKA_WRAP : Nat := 0x106

def CKA_UNWRAP : Nat := 0x107

def CKA_SIGN : Nat := 0x108

def CKA_VERIFY : Nat := 0x10A

def CKA_DERIVE : Nat := 0x10C

def CKA_MODULUS : Nat := 0x120

def CKA_MODULUS_BITS : Nat := 0x121

def CKA_PUBLIC_EXPONENT : Nat := 0x122

def CKA_EXTRACTABLE : Nat := 0x162

def CKA_LOCAL : Nat := 0x163

def CKA_NEVER_EXTRACTABLE : Nat := 0x164

def CKA_ALWAYS_SENSITIVE : Nat := 0x165

def CKA_ALWAYS_AUTHENTICATE : Nat := 0x202

def CKS_RO_PUBLIC_SESSION : Nat := 0

def CKS_RO_USER_FUNCTIONS : Nat := 1

/-- On LP64 macOS: five 8-byte fields of `CK_RSA_PKCS_OAEP_PARAMS`. -/
def sizeof_CK_RSA_PKCS_OAEP_PARAMS : Nat := 40

/-- On LP64 macOS: three 8-byte fields of `CK_RSA_PKCS_PSS_PARAMS`. -/
def sizeof_CK_RSA_PKCS_PSS_PARAMS : Nat := 24

/-- Return codes used by the translated entry points. -/
inductive CK_RV where
  | CKR_OK
  | CKR_ARGUMENTS_BAD
  | CKR_BUFFER_TOO_SMALL
  | CKR_ATTRIBUTE_TYPE_INVALID
  | CKR_OBJECT_HANDLE_INVALID
  | CKR_KEY_HANDLE_INVALID
  | CKR_KEY_TYPE_INCONSISTENT
  | CKR_KEY_FUNCTION_NOT_PERMITTED
  | CKR_MECHANISM_INVALID
  | CKR_MECHANISM_PARAM_INVALID
  | CKR_OPERATION_ACTIVE
  | CKR_OPERATION_NOT_INITIALIZED
  | CKR_DATA_LEN_RANGE
  | CKR_GENERAL_ERROR
  | CKR_FUNCTION_FAILED
  | CKR_SIGNATURE_INVALID
  deriving DecidableEq, Repr

/-- Session operation state, `enum s_state` in the source. -/
inductive s_state where
  | NO_PENDING
  | E_INIT
  | E_UPDATE
  | D_INIT
  | D_UPDATE
  | S_INIT
  | S_UPDATE
  | V_INIT
  | V_UPDATE
  deriving DecidableEq, Repr

/-! ### Data model -/

/-- An opaque `SecKeyRef`; the only operation the engine uses on it is
`SecKeyGetBlockSize`, so the embedding carries the block size. -/
structure SecKey where
  blockSize : Nat
  deriving DecidableEq, Repr

/-- `CK_ATTRIBUTE`: type, value pointer (None models NULL) and length.
A value's bytes are carried in place of the pointed-to buffer. -/
structure CK_ATTRIBUTE where
  type : Nat
  pValue : Option (List Nat)
  ulValueLen : Nat
  deriving DecidableEq, Repr

/-- `struct id_info`: one identity on a token.  Host-derived data
(certificate DER, labels, RSA modulus/exponent from
`SecKeyCopyExternalRepresentation` + `get_pubkey_info`) is carried as
abstract byte lists; `pubkeyinfo` is `some` exactly when both host calls
succeeded. -/
structure id_info where
  label : List Nat
  privLabel : List Nat
  certDER : List Nat
  subject : Option (List Nat)
  issuer : Option (List Nat)
  serial : Option (List Nat)
  keytype : Nat
  pubkey : SecKey
  privkey : SecKey
  pubkeyinfo : Option (List Nat × List Nat)
  privcansign : Bool
  privcandecrypt : Bool
  pubcanverify : Bool
  pubcanencrypt : Bool
  pubcanwrap : Bool
  deriving DecidableEq, Repr

/-- `struct obj_info`.  The C field `class` is a reserved word in Lean and
is rendered `objClass`. -/
structure obj_info where
  id : Option id_info
  objClass : Nat
  attrs : List CK_ATTRIBUTE
  deriving DecidableEq, Repr

/-- `struct session`.  The token pointer is abstracted to an identifier;
`alg`/`dalg` are `SecKeyAlgorithm` values (constant strings in the host
framework), abstracted to numbers, `none` modelling NULL.  `mdc` is the
running digest context. -/
structure session where
  slot_id : Nat
  token : Option Nat
  obj_list : List obj_info
  obj_search_index : Nat
  search_attrs : List CK_ATTRIBUTE
  state : s_state
  key : Option SecKey
  outsize : Nat
  alg : Option Nat
  dalg : Option Nat
  hash_alg : Nat
  mdc : Option Nat
  deriving DecidableEq, Repr

/-! ### Mechanism registry and parameter validation -/

/-- `enum param_types` from the mechanism table header. -/
inductive param_types where
  | NONE
  | OAEP
  | PSS
  deriving DecidableEq, Repr

/-- One row of `keychain_mechmap`. -/
structure mechanism_map where
  cki_mech : Nat
  min_keylen : Nat
  max_keylen : Nat
  usage_flags : Nat
  parameters : param_types
  blocksize_out : Bool
  sec_encmech : Option Nat
  sec_signmech : Option Nat
  sec_dsignmech : Option Nat
  sec_digest : Nat
  deriving DecidableEq, Repr

/-- One row of `keychain_param_map`. -/
structure param_map_entry where
  base_type : Nat
  hash_alg : Nat
  mgf : Nat
  slen : Nat
  encalg : Option Nat
  signalg : Option Nat
  dsignalg : Option Nat
  deriving DecidableEq, Repr

/-- `CK_RSA_PKCS_OAEP_PARAMS`. -/
structure CK_RSA_PKCS_OAEP_PARAMS where
  hashAlg : Nat
  mgf : Nat
  source : Nat
  pSourceData : Option (List Nat)
  ulSourceDataLen : Nat
  deriving DecidableEq, Repr

/-- `CK_RSA_PKCS_PSS_PARAMS`. -/
structure CK_RSA_PKCS_PSS_PARAMS where
  hashAlg : Nat
  mgf : Nat
  sLen : Nat
  deriving DecidableEq, Repr

/-- The payload behind a non-NULL `CK_MECHANISM.pParameter`. -/
inductive mech_params where
  | oaep (p : CK_RSA_PKCS_OAEP_PARAMS)
  | pss (p : CK_RSA_PKCS_PSS_PARAMS)
  deriving DecidableEq, Repr

/-- `CK_MECHANISM`. -/
structure CK_MECHANISM where
  mechanism : Nat
  pParameter : Option mech_params
  ulParameterLen : Nat
  deriving DecidableEq, Repr

/-- `get_mechmap`: linear scan of the mechanism table. -/
def get_mechmap (mechlist : List mechanism_map) (mechtype : Nat) :
    Option mechanism_map :=
  mechlist.find? (fun mm => mm.cki_mech == mechtype)

/-- The four outputs `mech_param_validate` can produce (the C function
writes through whichever of its out-pointers are non-NULL; the embedding
returns all four and each caller selects the ones it requested). -/
structure validate_result where
  encalg : Option Nat
  signalg : Option Nat
  dsignalg : Option Nat
  digest : Nat
  deriving DecidableEq, Repr

/-- `mech_param_validate`: `none` models returning `false`. -/
def mech_param_validate (param_map : List param_map_entry)
    (mptr : CK_MECHANISM) (mechmap : mechanism_map) : Option validate_result :=
  match mechmap.parameters with
  | param_types.NONE =>
      if mptr.pParameter.isSome ∨ mptr.ulParameterLen ≠ 0 then none
      else
        some ⟨mechmap.sec_encmech, mechmap.sec_signmech, mechmap.sec_dsignmech,
              mechmap.sec_digest⟩
  | param_types.OAEP =>
      match mptr.pParameter with
      | some (mech_params.oaep oaep) =>
          if mptr.ulParameterLen ≠ sizeof_CK_RSA_PKCS_OAEP_PARAMS then none
          else if oaep.source ≠ 0 ∧ oaep.source ≠ CKZ_DATA_SPECIFIED then none
          else if oaep.source = CKZ_DATA_SPECIFIED ∧
                  (oaep.pSourceData.isSome ∨ oaep.ulSourceDataLen ≠ 0) then none
          else
            match param_map.find? (fun e =>
                mptr.mechanism == e.base_type && oaep.hashAlg == e.hash_alg &&
                oaep.mgf == e.mgf) with
            | some e => some ⟨e.encalg, e.signalg, e.dsignalg, e.hash_alg⟩
            | none => none
      | _ => none
  | param_types.PSS =>
      match mptr.pParameter with
      | some (mech_params.pss pss) =>
          if mptr.ulParameterLen ≠ sizeof_CK_RSA_PKCS_PSS_PARAMS then none
          else
            match param_map.find? (fun e =>
                mptr.mechanism == e.base_type && pss.hashAlg == e.hash_alg &&
                pss.mgf == e.mgf && pss.sLen == e.slen) with
            | some e => some ⟨e.encalg, e.signalg, e.dsignalg, e.hash_alg⟩
            | none => none
      | _ => none

/-! ### Crypto operation entry points

Object handles are `CK_ULONG`; the C code decrements the handle before the
range check, so handle 0 wraps around to `2^64 - 1` and fails the check.
The decrement is modelled as addition of `2^64 - 1` modulo `2^64`. -/

/-- The C `object--` on a `CK_OBJECT_HANDLE`. -/
def handle_dec (object : Nat) : Nat := (object + (2 ^ 64 - 1)) % 2 ^ 64

/-- `C_EncryptInit`.  A `none` mechanism pointer models NULL. -/
def C_EncryptInit (mechlist : List mechanism_map)
    (param_map : List param_map_entry) (se : session)
    (mech : Option CK_MECHANISM) (object : Nat) : CK_RV × session :=
  match mech with
  | none => (CK_RV.CKR_MECHANISM_INVALID, se)
  | some m =>
      let obj := handle_dec object
      if hlt : obj < se.obj_list.length then
        if se.state ≠ s_state.NO_PENDING then (CK_RV.CKR_OPERATION_ACTIVE, se)
        else if se.obj_list[obj].objClass ≠ CKO_PUBLIC_KEY then
          (CK_RV.CKR_KEY_TYPE_INCONSISTENT, se)
        else
          match se.obj_list[obj].id with
          | none => (CK_RV.CKR_ARGUMENTS_BAD, se)
          | some id =>
              match get_mechmap mechlist m.mechanism with
              | none => (CK_RV.CKR_MECHANISM_INVALID, se)
              | some mm =>
                  if mm.usage_flags &&& CKF_ENCRYPT = 0 then
                    (CK_RV.CKR_MECHANISM_INVALID, se)
                  else
                    match mech_param_validate param_map m mm with
                    | none => (CK_RV.CKR_MECHANISM_PARAM_INVALID, se)
                    | some res =>
                        (CK_RV.CKR_OK,
                         { se with
                            key := some id.pubkey
                            alg := res.encalg
                            outsize :=
                              if mm.blocksize_out then id.pubkey.blockSize else 0
                            state := s_state.E_INIT })
      else (CK_RV.CKR_KEY_HANDLE_INVALID, se)

/-- `C_DecryptInit`. -/
def C_DecryptInit (mechlist : List mechanism_map)
    (param_map : List param_map_entry) (se : session)
    (mech : Option CK_MECHANISM) (key : Nat) : CK_RV × session :=
  match mech with
  | none => (CK_RV.CKR_MECHANISM_INVALID, se)
  | some m =>
      let obj := handle_dec key
      if hlt : obj < se.obj_list.length then
        if se.state ≠ s_state.NO_PENDING then (CK_RV.CKR_OPERATION_ACTIVE, se)
        else if se.obj_list[obj].objClass ≠ CKO_PRIVATE_KEY then
          (CK_RV.CKR_KEY_TYPE_INCONSISTENT, se)
        else
          match se.obj_list[obj].id with
          | none => (CK_RV.CKR_ARGUMENTS_BAD, se)
          | some id =>
              if ¬id.privcandecrypt then
                (CK_RV.CKR_KEY_FUNCTION_NOT_PERMITTED, se)
              else
                match get_mechmap mechlist m.mechanism with
                | none => (CK_RV.CKR_MECHANISM_INVALID, se)
                | some mm =>
                    if mm.usage_flags &&& CKF_DECRYPT = 0 then
                      (CK_RV.CKR_MECHANISM_INVALID, se)
                    else
                      match mech_param_validate param_map m mm with
                      | none => (CK_RV.CKR_MECHANISM_PARAM_INVALID, se)
                      | some res =>
                          (CK_RV.CKR_OK,
                           { se with
                              key := some id.privkey
                              alg := res.encalg
                              outsize :=
                                if mm.blocksize_out then id.privkey.blockSize
                                else 0
                              state := s_state.D_INIT })
      else (CK_RV.CKR_KEY_HANDLE_INVALID, se)

/-- `C_SignInit`.  The C function dereferences the mechanism pointer
unconditionally, so the embedding takes it by value.  Note the order of
checks: pending state, handle range, identity back-pointer, the
`privcansign` capability, and only then the object class. -/
def C_SignInit (mechlist : List mechanism_map)
    (param_map : List param_map_entry) (se : session) (m : CK_MECHANISM)
    (object : Nat) : CK_RV × session :=
  if se.state ≠ s_state.NO_PENDING then (CK_RV.CKR_OPERATION_ACTIVE, se)
  else
    let obj := handle_dec object
    if hlt : obj < se.obj_list.length then
      match se.obj_list[obj].id with
      | none => (CK_RV.CKR_ARGUMENTS_BAD, se)
      | some id =>
          if ¬id.privcansign then (CK_RV.CKR_KEY_FUNCTION_NOT_PERMITTED, se)
          else if se.obj_list[obj].objClass ≠ CKO_PRIVATE_KEY then
            (CK_RV.CKR_KEY_TYPE_INCONSISTENT, se)
          else
            match get_mechmap mechlist m.mechanism with
            | none => (CK_RV.CKR_MECHANISM_INVALID, se)
            | some mm =>
                if mm.usage_flags &&& CKF_SIGN = 0 then
                  (CK_RV.CKR_MECHANISM_INVALID, se)
                else
                  match mech_param_validate param_map m mm with
                  | none => (CK_RV.CKR_MECHANISM_PARAM_INVALID, se)
                  | some res =>
                      (CK_RV.CKR_OK,
                       { se with
                          key := some id.privkey
                          alg := res.signalg
                          dalg := res.dsignalg
                          hash_alg := res.digest
                          outsize :=
                            if mm.blocksize_out then id.privkey.blockSize else 0
                          state := s_state.S_INIT })
    else (CK_RV.CKR_KEY_HANDLE_INVALID, se)

/-- `C_VerifyInit`.  Same remark on the check order as `C_SignInit`. -/
def C_VerifyInit (mechlist : List mechanism_map)
    (param_map : List param_map_entry) (se : session) (m : CK_MECHANISM)
    (key : Nat) : CK_RV × session :=
  if se.state ≠ s_state.NO_PENDING then (CK_RV.CKR_OPERATION_ACTIVE, se)
  else
    let obj := handle_dec key
    if hlt : obj < se.obj_list.length then
      match se.obj_list[obj].id with
      | none => (CK_RV.CKR_ARGUMENTS_BAD, se)
      | some id =>
          if ¬id.pubcanverify then (CK_RV.CKR_KEY_FUNCTION_NOT_PERMITTED, se)
          else if se.obj_list[obj].objClass ≠ CKO_PUBLIC_KEY then
            (CK_RV.CKR_KEY_TYPE_INCONSISTENT, se)
          else
            match get_mechmap mechlist m.mechanism with
            | none => (CK_RV.CKR_MECHANISM_INVALID, se)
            | some mm =>
                if mm.usage_flags &&& CKF_VERIFY = 0 then
                  (CK_RV.CKR_MECHANISM_INVALID, se)
                else
                  match mech_param_validate param_map m mm with
                  | none => (CK_RV.CKR_MECHANISM_PARAM_INVALID, se)
                  | some res =>
                      (CK_RV.CKR_OK,
                       { se with
                          key := some id.pubkey
                          alg := res.signalg
                          dalg := res.dsignalg
                          hash_alg := res.digest
                          outsize :=
                            if mm.blocksize_out then id.pubkey.blockSize else 0
                          state := s_state.V_INIT })
    else (CK_RV.CKR_KEY_HANDLE_INVALID, se)

/-- Clearing done by the single-shot paths after the host call:
release the key reference, forget the output size, state back to idle. -/
def clear_op (se : session) : session :=
  { se with key := none, outsize := 0, state := s_state.NO_PENDING }

/-- `C_Encrypt`.  `outdataPresent` models a non-NULL output pointer,
`outdatalen` the caller's `*outdatalen` on entry; `host` is the result of
`SecKeyCreateEncryptedData` (`none` = failure).  Results: return value,
session after the call, value stored to `*outdatalen` (if any), bytes
stored to the output buffer (if any). -/
def C_Encrypt (se : session) (outdataPresent : Bool) (outdatalen : Nat)
    (host : Option (List Nat)) : CK_RV × session × Option Nat × Option (List Nat) :=
  if se.state ≠ s_state.E_INIT then
    (CK_RV.CKR_OPERATION_NOT_INITIALIZED, se, none, none)
  else if outdataPresent = false then
    if se.outsize = 0 then (CK_RV.CKR_BUFFER_TOO_SMALL, se, none, none)
    else (CK_RV.CKR_OK, se, some se.outsize, none)
  else if se.outsize ≠ 0 ∧ se.outsize > outdatalen then
    (CK_RV.CKR_BUFFER_TOO_SMALL, se, some se.outsize, none)
  else
    match host with
    | none => (CK_RV.CKR_GENERAL_ERROR, clear_op se, none, none)
    | some out =>
        if outdatalen < out.length then
          (CK_RV.CKR_BUFFER_TOO_SMALL, se, some out.length, none)
        else (CK_RV.CKR_OK, clear_op se, some out.length, some out)

/-- `C_Decrypt`; structurally identical to `C_Encrypt` but gated on
`D_INIT` and calling `SecKeyCreateDecryptedData`. -/
def C_Decrypt (se : session) (outdataPresent : Bool) (outdatalen : Nat)
    (host : Option (List Nat)) : CK_RV × session × Option Nat × Option (List Nat) :=
  if se.state ≠ s_state.D_INIT then
    (CK_RV.CKR_OPERATION_NOT_INITIALIZED, se, none, none)
  else if outdataPresent = false then
    if se.outsize = 0 then (CK_RV.CKR_BUFFER_TOO_SMALL, se, none, none)
    else (CK_RV.CKR_OK, se, some se.outsize, none)
  else if se.outsize ≠ 0 ∧ se.outsize > outdatalen then
    (CK_RV.CKR_BUFFER_TOO_SMALL, se, some se.outsize, none)
  else
    match host with
    | none => (CK_RV.CKR_GENERAL_ERROR, clear_op se, none, none)
    | some out =>
        if outdatalen < out.length then
          (CK_RV.CKR_BUFFER_TOO_SMALL, se, some out.length, none)
        else (CK_RV.CKR_OK, clear_op se, some out.length, some out)

/-- `C_Sign`; gated on `S_INIT`, host call `SecKeyCreateSignature`. -/
def C_Sign (se : session) (sigPresent : Bool) (siglen : Nat)
    (host : Option (List Nat)) : CK_RV × session × Option Nat × Option (List Nat) :=
  if se.state ≠ s_state.S_INIT then
    (CK_RV.CKR_OPERATION_NOT_INITIALIZED, se, none, none)
  else if sigPresent = false then
    if se.outsize = 0 then (CK_RV.CKR_BUFFER_TOO_SMALL, se, none, none)
    else (CK_RV.CKR_OK, se, some se.outsize, none)
  else if se.outsize ≠ 0 ∧ se.outsize > siglen then
    (CK_RV.CKR_BUFFER_TOO_SMALL, se, some se.outsize, none)
  else
    match host with
    | none => (CK_RV.CKR_GENERAL_ERROR, clear_op se, none, none)
    | some sig =>
        if siglen < sig.length then
          (CK_RV.CKR_BUFFER_TOO_SMALL, se, some sig.length, none)
        else (CK_RV.CKR_OK, clear_op se, some sig.length, some sig)

/-- `C_SignFinal`.  Requires `S_UPDATE`; on the probe paths nothing is
consumed; once the digest is finalized `mdc` is gone; full success (and a
host failure) clear key, algorithms, outsize and state, while the
should-not-happen short-buffer branch after the host call leaves the
session in `S_UPDATE` (matching the `goto out` in the source). -/
def C_SignFinal (se : session) (sigPresent : Bool) (siglen : Nat)
    (host : Option (List Nat)) : CK_RV × session × Option Nat × Option (List Nat) :=
  if se.state ≠ s_state.S_UPDATE then
    (CK_RV.CKR_OPERATION_NOT_INITIALIZED, se, none, none)
  else if sigPresent = false then
    if se.outsize = 0 then (CK_RV.CKR_BUFFER_TOO_SMALL, se, none, none)
    else (CK_RV.CKR_OK, se, some se.outsize, none)
  else if se.outsize ≠ 0 ∧ se.outsize > siglen then
    (CK_RV.CKR_BUFFER_TOO_SMALL, se, some se.outsize, none)
  else
    let se₁ := { se with mdc := none }
    let finish := fun (s : session) =>
      { s with key := none, dalg := none, alg := none, outsize := 0,
               state := s_state.NO_PENDING }
    match host with
    | none => (CK_RV.CKR_FUNCTION_FAILED, finish se₁, none, none)
    | some sig =>
        if siglen < sig.length then (CK_RV.CKR_FUNCTION_FAILED, se₁, none, none)
        else (CK_RV.CKR_OK, finish se₁, some sig.length, some sig)

/-- `C_VerifyFinal`.  Requires `V_UPDATE`; finalizes the digest and asks
the host to verify (`hostVerify` is the `SecKeyVerifySignature` outcome).
Note the translation of the source faithfully: no branch of this function
resets `state` to `NO_PENDING` and none releases `key`. -/
def C_VerifyFinal (se : session) (hostVerify : Bool) : CK_RV × session :=
  if se.state ≠ s_state.V_UPDATE then (CK_RV.CKR_OPERATION_NOT_INITIALIZED, se)
  else
    let se₁ := { se with mdc := none }
    if hostVerify then (CK_RV.CKR_OK, se₁)
    else (CK_RV.CKR_SIGNATURE_INVALID, se₁)

/-! ### Attribute lookup (`C_GetAttributeValue`) -/

/-- `find_attribute`: first attribute of the object with the given type. -/
def find_attribute (obj : obj_info) (type : Nat) : Option CK_ATTRIBUTE :=
  obj.attrs.find? (fun a => a.type == type)

/-- One entry of the caller's template for `C_GetAttributeValue`:
attribute type, whether `pValue` is non-NULL, and the caller's buffer
length `ulValueLen`. -/
structure ga_template_entry where
  type : Nat
  hasValue : Bool
  ulValueLen : Nat
  deriving DecidableEq, Repr

/-- What `C_GetAttributeValue` stores back for one template entry: the
returned `ulValueLen` and the bytes copied into the caller's buffer. -/
structure ga_result where
  ulValueLen : Nat
  copied : Option (List Nat)
  deriving DecidableEq, Repr

/-- The per-attribute body of the `C_GetAttributeValue` loop; the second
component is the error code assigned to `rv` on this iteration, if any. -/
def ga_step (obj : obj_info) (t : ga_template_entry) :
    ga_result × Option CK_RV :=
  match find_attribute obj t.type with
  | some attr =>
      if t.hasValue = false then ({ ulValueLen := attr.ulValueLen, copied := none }, none)
      else if t.ulValueLen < attr.ulValueLen then
        ({ ulValueLen := attr.ulValueLen, copied := none },
         some CK_RV.CKR_BUFFER_TOO_SMALL)
      else
        ({ ulValueLen := attr.ulValueLen,
           copied := some ((attr.pValue.getD []).take attr.ulValueLen) }, none)
  | none =>
      ({ ulValueLen := CK_UNAVAILABLE_INFORMATION, copied := none },
       some CK_RV.CKR_ATTRIBUTE_TYPE_INVALID)

/-- `C_GetAttributeValue`: handle decrement and range check, then the
accumulation loop over the template. -/
def C_GetAttributeValue (se : session) (object : Nat)
    (template : List ga_template_entry) : CK_RV × List ga_result :=
  let obj := handle_dec object
  if hlt : obj < se.obj_list.length then
    template.foldl (fun acc t =>
        let r := ga_step se.obj_list[obj] t
        (r.2.getD acc.1, acc.2 ++ [r.1])) (CK_RV.CKR_OK, [])
  else (CK_RV.CKR_OBJECT_HANDLE_INVALID, [])

/-! ### Search engine (`C_FindObjectsInit` / `C_FindObjects`) -/

/-- Content comparison of two attributes whose type and length already
agree: two NULL value pointers (the same pointer) trivially agree, one
NULL pointer fails, and otherwise `memcmp` compares `ulValueLen` bytes. -/
def attr_content_match (b a : CK_ATTRIBUTE) : Bool :=
  match b.pValue, a.pValue with
  | none, none => true
  | some x, some y => x.take a.ulValueLen == y.take a.ulValueLen
  | _, _ => false

/-- The inner loop of `search_object` for one template attribute: scan
the object for the first attribute with the same type and length; a hit
matches iff the contents agree. -/
def attr_match (obj : obj_info) (a : CK_ATTRIBUTE) : Bool :=
  match obj.attrs.find? (fun b => b.type == a.type && b.ulValueLen == a.ulValueLen) with
  | none => false
  | some b => attr_content_match b a

/-- `search_object`: an object matches when every template attribute
matches; the empty template matches everything. -/
def search_object (obj : obj_info) (attrs : List CK_ATTRIBUTE) : Bool :=
  attrs.all (attr_match obj)

/-- The deep copy performed by `C_FindObjectsInit`: a template entry whose
length is the unavailable sentinel gets a NULL value pointer. -/
def copy_search_attr (t : CK_ATTRIBUTE) : CK_ATTRIBUTE :=
  { type := t.type
    ulValueLen := t.ulValueLen
    pValue :=
      if t.ulValueLen = CK_UNAVAILABLE_INFORMATION then none else t.pValue }

/-- `C_FindObjectsInit`: always succeeds on a valid session; resets the
cursor and installs the copied template, touching nothing else. -/
def C_FindObjectsInit (se : session) (template : List CK_ATTRIBUTE) :
    CK_RV × session :=
  (CK_RV.CKR_OK,
   { se with obj_search_index := 0
             search_attrs := template.map copy_search_attr })

/-- The scan loop of `C_FindObjects`: `rest` is the tail of the object
list starting at index `idx`, `rc` the number of handles already stored.
Returns the handles found plus the new cursor. -/
def find_objects_loop (attrs : List CK_ATTRIBUTE) (maxcount : Nat) :
    List obj_info → Nat → Nat → List Nat × Nat
  | [], idx, _ => ([], idx)
  | obj :: rest, idx, rc =>
      if search_object obj attrs then
        if rc + 1 ≥ maxcount then ([idx + 1], idx + 1)
        else
          let r := find_objects_loop attrs maxcount rest (idx + 1) (rc + 1)
          ((idx + 1) :: r.1, r.2)
      else find_objects_loop attrs maxcount rest (idx + 1) rc

/-- `C_FindObjects`: rejects a NULL output array or `maxcount` 0, then
resumes the scan at the session's cursor. -/
def C_FindObjects (se : session) (objPresent : Bool) (maxcount : Nat) :
    CK_RV × List Nat × session :=
  if objPresent = false ∨ maxcount = 0 then (CK_RV.CKR_ARGUMENTS_BAD, [], se)
  else
    let r := find_objects_loop se.search_attrs maxcount
               (se.obj_list.drop se.obj_search_index) se.obj_search_index 0
    (CK_RV.CKR_OK, r.1, { se with obj_search_index := r.2 })

/-! ### Object builder (`build_id_objects` / `get_index_bytes`) -/

/-- `get_index_bytes`: the shortest big-endian byte string carrying the
index (an `unsigned int`, hence the reduction modulo `2^32`); the lowest
byte is always emitted, even for index 0.  The `if` ladder is the
translation of the C loop `for (i = sizeof(index); i > 1; i--)` that finds
the highest non-zero byte. -/
def get_index_bytes (index : Nat) : List Nat :=
  let index := index % 2 ^ 32
  let length :=
    if index >>> 24 ≠ 0 then 4
    else if index >>> 16 ≠ 0 then 3
    else if index >>> 8 ≠ 0 then 2
    else 1
  (List.range length).map (fun i => (index >>> ((length - i - 1) * 8)) % 256)

/-- An attribute as stored by `ADD_ATTR`/`ADD_ATTR_SIZE`: a fresh copy of
`size` bytes with `ulValueLen = size`. -/
def mkAttr (type : Nat) (bytes : List Nat) : CK_ATTRIBUTE :=
  { type := type, pValue := some bytes, ulValueLen := bytes.length }

/-- Byte image of a `CK_ULONG` attribute value (8 bytes, host order). -/
def ulongBytes (v : Nat) : List Nat :=
  (List.range 8).map (fun i => (v >>> (8 * i)) % 256)

/-- Byte image of a `CK_BBOOL` attribute value. -/
def boolBytes (b : Bool) : List Nat := [if b then 1 else 0]

/-- Helper for the attributes only added when the parsed certificate data
is available (`if (subject) ADD_ATTR_SIZE(...)` and friends). -/
def optAttr (type : Nat) (v : Option (List Nat)) : List CK_ATTRIBUTE :=
  match v with
  | some bytes => [mkAttr type bytes]
  | none => []

/-- The certificate object built for identity `idx`. -/
def cert_object (idx : Nat) (id : id_info) : obj_info :=
  { id := some id
    objClass := CKO_CERTIFICATE
    attrs :=
      [ mkAttr CKA_CLASS (ulongBytes CKO_CERTIFICATE),
        mkAttr CKA_ID (get_index_bytes idx),
        mkAttr CKA_CERTIFICATE_TYPE (ulongBytes CKC_X_509),
        mkAttr CKA_TOKEN (boolBytes true),
        mkAttr CKA_LABEL id.label,
        mkAttr CKA_VALUE id.certDER ]
      ++ optAttr CKA_SUBJECT id.subject
      ++ optAttr CKA_ISSUER id.issuer
      ++ optAttr CKA_SERIAL_NUMBER id.serial }

/-- The public-key object built for identity `idx`. -/
def pub_object (idx : Nat) (id : id_info) : obj_info :=
  { id := some id
    objClass := CKO_PUBLIC_KEY
    attrs :=
      [ mkAttr CKA_CLASS (ulongBytes CKO_PUBLIC_KEY),
        mkAttr CKA_ID (get_index_bytes idx),
        mkAttr CKA_KEY_TYPE (ulongBytes id.keytype),
        mkAttr CKA_TOKEN (boolBytes true),
        mkAttr CKA_LOCAL (boolBytes true),
        mkAttr CKA_ENCRYPT (boolBytes id.pubcanencrypt),
        mkAttr CKA_VERIFY (boolBytes id.pubcanverify) ]
      ++ optAttr CKA_SUBJECT id.subject
      ++ [ mkAttr CKA_LABEL id.label,
           mkAttr CKA_MODULUS_BITS (ulongBytes (id.pubkey.blockSize * 8)) ]
      ++ (match id.pubkeyinfo with
          | some mi => [mkAttr CKA_MODULUS mi.1, mkAttr CKA_PUBLIC_EXPONENT mi.2]
          | none => [])
      ++ [ mkAttr CKA_WRAP (boolBytes false),
           mkAttr CKA_DERIVE (boolBytes false) ] }

/-- The private-key object built for identity `idx`. -/
def priv_object (idx : Nat) (id : id_info) : obj_info :=
  { id := some id
    objClass := CKO_PRIVATE_KEY
    attrs :=
      [ mkAttr CKA_CLASS (ulongBytes CKO_PRIVATE_KEY),
        mkAttr CKA_ID (get_index_bytes idx),
        mkAttr CKA_KEY_TYPE (ulongBytes id.keytype),
        mkAttr CKA_TOKEN (boolBytes true),
        mkAttr CKA_PRIVATE (boolBytes true),
        mkAttr CKA_DECRYPT (boolBytes id.privcandecrypt),
        mkAttr CKA_SIGN (boolBytes id.privcansign) ]
      ++ optAttr CKA_SUBJECT id.subject
      ++ [ mkAttr CKA_LABEL id.privLabel ]
      ++ (match id.pubkeyinfo with
          | some mi => [mkAttr CKA_MODULUS mi.1, mkAttr CKA_PUBLIC_EXPONENT mi.2]
          | none => [])
      ++ [ mkAttr CKA_SENSITIVE (boolBytes true),
           mkAttr CKA_ALWAYS_SENSITIVE (boolBytes true),
           mkAttr CKA_NEVER_EXTRACTABLE (boolBytes true),
           mkAttr CKA_LOCAL (boolBytes true),
           mkAttr CKA_ALWAYS_AUTHENTICATE (boolBytes false),
           mkAttr CKA_UNWRAP (boolBytes false),
           mkAttr CKA_DERIVE (boolBytes false),
           mkAttr CKA_EXTRACTABLE (boolBytes false) ] }

/-- `build_id_objects`: three objects per identity, in the order
certificate, public key, private key, indexed by the identity's 0-based
position. -/
def build_id_objects (ids : List id_info) : List obj_info :=
  ids.enum.flatMap
    (fun p => [cert_object p.1 p.2, pub_object p.1 p.2, priv_object p.1 p.2])

/-- Big-endian byte-list decoding, for stating what `get_index_bytes`
encodes. -/
def from_bytes_be (l : List Nat) : Nat :=
  l.foldl (fun acc b => acc * 256 + b) 0

/-! ### Token lifecycle and reference counting -/

/-- The fields of `struct slot_entry` that the reference-counting
discipline concerns, plus bookkeeping for the invariant: whether some
slot still points at the entry, whether the entry has been freed, and how
many open sessions hold a reference. -/
structure token_state where
  refcount : Nat
  inSlot : Bool
  freed : Bool
  sessions : Nat
  logged_in : Bool
  deriving DecidableEq, Repr

/-- `slot_entry_free`: decrement; if the count stays positive, log out of
the token exactly when it dropped to 1 (the source ignores its `logout`
argument and always does this); if it reached 0, release the entry. -/
def slot_entry_free_m (t : token_state) : token_state :=
  let r := t.refcount - 1
  if r > 0 then
    { t with refcount := r, logged_in := if r = 1 then false else t.logged_in }
  else { t with refcount := r, freed := true }

/-- The entry built by `add_token_id`: refcount 1, installed in a slot,
not logged in, no sessions yet. -/
def add_token_id_m : token_state :=
  { refcount := 1, inSlot := true, freed := false, sessions := 0,
    logged_in := false }

/-- The events that touch a token's reference count: `C_OpenSession`
increments under the entry mutex; `C_CloseSession`/`sess_free` decrements
through `slot_entry_free`; `remove_token_id` empties the slot and
decrements once; `C_Login` can set the logged-in flag. -/
inductive token_step : token_state → token_state → Prop where
  | open_session (t : token_state) (h1 : t.inSlot = true) (h2 : t.freed = false) :
      token_step t { t with refcount := t.refcount + 1, sessions := t.sessions + 1 }
  | close_session (t : token_state) (h1 : 1 ≤ t.sessions) (h2 : t.freed = false) :
      token_step t (slot_entry_free_m { t with sessions := t.sessions - 1 })
  | remove_token (t : token_state) (h1 : t.inSlot = true) (h2 : t.freed = false) :
      token_step t (slot_entry_free_m { t with inSlot := false })
  | login_token (t : token_state) (h2 : t.freed = false) :
      token_step t { t with logged_in := true }

/-- States reachable from a freshly added token. -/
def token_reachable (t : token_state) : Prop :=
  Relation.ReflTransGen token_step add_token_id_m t

/-! ### Login (`C_Login` / `C_GetSessionInfo`) -/

/-- The per-token data `C_Login` reads and writes: whether the
local-authentication context was allocated, the logged-in flag, and how
many identities the token carries. -/
structure login_token where
  lacontext : Bool
  logged_in : Bool
  id_count : Nat
  deriving DecidableEq, Repr

/-- The PIN-setting loop of `C_Login`: try each identity in turn with the
local-authentication primitive (`authResult i` is the `lacontext_auth`
outcome for identity `i`); stop at the first failure.  Returns the final
`rv` and the number of primitive invocations. -/
def login_auth_loop (authResult : Nat → CK_RV) : Nat → Nat → CK_RV × Nat
  | _, 0 => (CK_RV.CKR_OK, 0)
  | i, rem + 1 =>
      let rv := authResult i
      if rv ≠ CK_RV.CKR_OK then (rv, 1)
      else
        let r := login_auth_loop authResult (i + 1) rem
        (r.1, r.2 + 1)

/-- `C_Login`: sessions without a token succeed silently; with a PIN but
no local-authentication context the call skips straight to success without
marking the token logged in; otherwise a present PIN is fed to every
identity and the logged-in flag is set only if nothing failed; a NULL PIN
marks the token logged in without calling the primitive.  Returns the
result, the token afterwards, and the number of primitive invocations. -/
def C_Login (token : Option login_token) (pinPresent : Bool)
    (authResult : Nat → CK_RV) : CK_RV × Option login_token × Nat :=
  match token with
  | none => (CK_RV.CKR_OK, none, 0)
  | some t =>
      if pinPresent then
        if t.lacontext = false then (CK_RV.CKR_OK, some t, 0)
        else
          let r := login_auth_loop authResult 0 t.id_count
          if r.1 = CK_RV.CKR_OK then
            (CK_RV.CKR_OK, some { t with logged_in := true }, r.2)
          else (r.1, some t, r.2)
      else (CK_RV.CKR_OK, some { t with logged_in := true }, 0)

/-- The session-state field reported by `C_GetSessionInfo`. -/
def session_info_state (token : Option login_token) : Nat :=
  match token with
  | some t =>
      if t.logged_in then CKS_RO_USER_FUNCTIONS else CKS_RO_PUBLIC_SESSION
  | none => CKS_RO_PUBLIC_SESSION

/-! ### Concrete fixtures used by individual claims -/

/-- A session sitting in `V_UPDATE` with a held key and a live digest
context, as produced by `C_VerifyInit` followed by `C_VerifyUpdate`. -/
def c1_session : session :=
  { slot_id := 0, token := some 0, obj_list := [], obj_search_index := 0,
    search_attrs := [], state := s_state.V_UPDATE, key := some ⟨256⟩,
    outsize := 256, alg := some 1, dalg := some 2, hash_alg := 0,
    mdc := some 0 }

/-- An identity whose public key is not allowed to encrypt. -/
def c2_id : id_info :=
  { label := [], privLabel := [], certDER := [], subject := none,
    issuer := none, serial := none, keytype := 0, pubkey := ⟨256⟩,
    privkey := ⟨256⟩, pubkeyinfo := none, privcansign := true,
    privcandecrypt := true, pubcanverify := true, pubcanencrypt := false,
    pubcanwrap := false }

/-- An idle session whose only object is the public key of `c2_id`. -/
def c2_session : session :=
  { slot_id := 0, token := some 0,
    obj_list := [{ id := some c2_id, objClass := CKO_PUBLIC_KEY, attrs := [] }],
    obj_search_index := 0, search_attrs := [], state := s_state.NO_PENDING,
    key := none, outsize := 0, alg := none, dalg := none, hash_alg := 0,
    mdc := none }

/-- A one-row mechanism table supporting encryption with no parameters. -/
def c2_mechanism_list : List mechanism_map :=
  [{ cki_mech := 1, min_keylen := 1024, max_keylen := 4096,
     usage_flags := CKF_ENCRYPT, parameters := param_types.NONE,
     blocksize_out := true, sec_encmech := some 10, sec_signmech := none,
     sec_dsignmech := none, sec_digest := 0 }]

/-- A session in `E_INIT` with a known output size, for witnesses. -/
def c6_enc_session : session :=
  { slot_id := 0, token := some 0, obj_list := [], obj_search_index := 0,
    search_attrs := [], state := s_state.E_INIT, key := some ⟨256⟩,
    outsize := 256, alg := some 10, dalg := none, hash_alg := 0, mdc := none }

/-- A session in `D_INIT` with unknown output size, for witnesses. -/
def c6_dec_session : session :=
  { slot_id := 0, token := some 0, obj_list := [], obj_search_index := 0,
    search_attrs := [], state := s_state.D_INIT, key := some ⟨256⟩,
    outsize := 0, alg := some 10, dalg := none, hash_alg := 0, mdc := none }

/-- A session in `S_INIT` with a known output size, for witnesses. -/
def c6_sign_session : session :=
  { slot_id := 0, token := some 0, obj_list := [], obj_search_index := 0,
    search_attrs := [], state := s_state.S_INIT, key := some ⟨256⟩,
    outsize := 256, alg := some 11, dalg := some 12, hash_alg := 0,
    mdc := none }

/-! ### Claim theorems -/

/-- An identity with every capability flag cleared. -/
def c2_nocap_id : id_info :=
  { label := [], privLabel := [], certDER := [], subject := none,
    issuer := none, serial := none, keytype := 0, pubkey := ⟨256⟩,
    privkey := ⟨256⟩, pubkeyinfo := none, privcansign := false,
    privcandecrypt := false, pubcanverify := false, pubcanencrypt := false,
    pubcanwrap := false }

/-- The private-key object over `c2_nocap_id`. -/
def c2_nocap_obj : obj_info :=
  { id := some c2_nocap_id, objClass := CKO_PRIVATE_KEY, attrs := [] }

/-- An idle session whose only object is the private key of
`c2_nocap_id`. -/
def c2_nocap_session : session :=
  { slot_id := 0, token := some 0,
    obj_list := [c2_nocap_obj],
    obj_search_index := 0, search_attrs := [], state := s_state.NO_PENDING,
    key := none, outsize := 0, alg := none, dalg := none, hash_alg := 0,
    mdc := none }

/-- The inductive invariant carried through the token lifecycle for C4:
an unfreed token's count is one reference from the slot (while occupied)
plus one per open session, and is positive; a freed token had reached
count 0 and had already left its slot. -/
def token_inv (t : token_state) : Prop :=
  (t.freed = false →
    t.refcount = (if t.inSlot then 1 else 0) + t.sessions ∧ 1 ≤ t.refcount) ∧
  (t.freed = true → t.refcount = 0 ∧ t.inSlot = false)

/-- The per-identity triple of objects, as appended by one iteration of
the `build_id_objects` loop. -/
def id_triple (p : Nat × id_info) : List obj_info :=
  [cert_object p.1 p.2, pub_object p.1 p.2, priv_object p.1 p.2]

/-- A concrete identity for the C5 witness. -/
def c5_id : id_info :=
  { label := [76], privLabel := [75], certDER := [1, 2, 3],
    subject := some [4], issuer := some [5], serial := some [6],
    keytype := 0, pubkey := ⟨256⟩, privkey := ⟨256⟩,
    pubkeyinfo := some ([7, 8], [1, 0, 1]), privcansign := true,
    privcandecrypt := true, pubcanverify := true, pubcanencrypt := true,
    pubcanwrap := false }

/-- A concrete object for the C7 witness: a certificate carrying one
3-byte label attribute. -/
def c7_obj : obj_info :=
  { id := none, objClass := CKO_CERTIFICATE,
    attrs := [mkAttr CKA_LABEL [1, 2, 3]] }

/-- A session over `c7_obj` for the C7 witness. -/
def c7_session : session :=
  { slot_id := 0, token := some 0, obj_list := [c7_obj],
    obj_search_index := 0, search_attrs := [], state := s_state.NO_PENDING,
    key := none, outsize := 0, alg := none, dalg := none, hash_alg := 0,
    mdc := none }

/-- A certificate object for the C8 witness. -/
def c8_obj1 : obj_info :=
  { id := none, objClass := CKO_CERTIFICATE,
    attrs := [mkAttr CKA_CLASS (ulongBytes CKO_CERTIFICATE)] }

/-- A public-key object for the C8 witness. -/
def c8_obj2 : obj_info :=
  { id := none, objClass := CKO_PUBLIC_KEY,
    attrs := [mkAttr CKA_CLASS (ulongBytes CKO_PUBLIC_KEY)] }

/-- A session searching for certificates over two objects, for the C8
witness. -/
def c8_session : session :=
  { slot_id := 0, token := some 0, obj_list := [c8_obj1, c8_obj2],
    obj_search_index := 0,
    search_attrs := [mkAttr CKA_CLASS (ulongBytes CKO_CERTIFICATE)],
    state := s_state.NO_PENDING, key := none, outsize := 0, alg := none,
    dalg := none, hash_alg := 0, mdc := none }

/-- An OAEP mechanism-table row for the C3 witness
(`CKM_RSA_PKCS_OAEP` is mechanism 9). -/
def c3_mm : mechanism_map :=
  { cki_mech := 9, min_keylen := 1024, max_keylen := 4096,
    usage_flags := CKF_ENCRYPT, parameters := param_types.OAEP,
    blocksize_out := true, sec_encmech := none, sec_signmech := none,
    sec_dsignmech := none, sec_digest := 0 }

/-- A one-row parameter map (SHA-256 with MGF1-SHA-256) for the C3
witness. -/
def c3_param_map : List param_map_entry :=
  [{ base_type := 9, hash_alg := 0x250, mgf := 2, slen := 0,
     encalg := some 21, signalg := none, dsignalg := none }]

/-- Matching OAEP parameters for the C3 witness. -/
def c3_oaep : CK_RSA_PKCS_OAEP_PARAMS :=
  { hashAlg := 0x250, mgf := 2, source := 1, pSourceData := none,
    ulSourceDataLen := 0 }

/-- The OAEP mechanism request built from `c3_oaep`. -/
def c3_mech : CK_MECHANISM :=
  { mechanism := 9, pParameter := some (mech_params.oaep c3_oaep),
    ulParameterLen := 40 }

/-- Claim C1 (code bug): the operation-state invariant fails at
`C_VerifyFinal`.  A session in `V_UPDATE` that runs `C_VerifyFinal` past
its state precondition gets a successful verification (`CKR_OK`) but the
session's operation state is still `V_UPDATE` and the held key is not
released, so a later `C_VerifyInit` on the same session is rejected with
`CKR_OPERATION_ACTIVE` forever — the spec's state table says
`verify-final` moves `V-update` to `none`. -/
theorem C1_verify_final_state_not_cleared :
    (C_VerifyFinal c1_session true).1 = CK_RV.CKR_OK ∧
    (C_VerifyFinal c1_session true).2.state = s_state.V_UPDATE ∧
    (C_VerifyFinal c1_session true).2.key = some ⟨256⟩ ∧
    (C_VerifyInit [] [] (C_VerifyFinal c1_session true).2 ⟨1, none, 0⟩ 1).1 =
      CK_RV.CKR_OPERATION_ACTIVE := by
  decide

/-- Claim C2 (counterexample): `C_EncryptInit` performs no capability
check.  With a public-key object whose identity has `pubcanencrypt`
false, and an otherwise valid request, the call returns `CKR_OK` and the
session enters `E_INIT` — not `CKR_KEY_FUNCTION_NOT_PERMITTED` with the
state left at `NO_PENDING` as the claim requires. -/
theorem C2_encrypt_init_missing_capability_check :
    c2_id.pubcanencrypt = false ∧
    (C_EncryptInit c2_mechanism_list [] c2_session (some ⟨1, none, 0⟩) 1).1 =
      CK_RV.CKR_OK ∧
    (C_EncryptInit c2_mechanism_list [] c2_session (some ⟨1, none, 0⟩) 1).2.state =
      s_state.E_INIT := by
  decide

/-- Claim C6: output-size probing in the single-shot operations.  In the
corresponding init state: a NULL output buffer with a known output size
returns `CKR_OK` with the size written and the session untouched; a NULL
buffer with unknown size returns `CKR_BUFFER_TOO_SMALL`; a non-NULL
buffer smaller than the known size returns `CKR_BUFFER_TOO_SMALL` with
the required size written back and the session unchanged (still in the
init state with the key held), so the call can be retried. -/
theorem C6_output_size_probing (se1 se2 se3 : session) (len : Nat)
    (host : Option (List Nat)) (h1 : se1.state = s_state.E_INIT)
    (h2 : se2.state = s_state.D_INIT) (h3 : se3.state = s_state.S_INIT) :
    (se1.outsize ≠ 0 →
      C_Encrypt se1 false len host = (CK_RV.CKR_OK, se1, some se1.outsize, none)) ∧
    (se1.outsize = 0 →
      C_Encrypt se1 false len host = (CK_RV.CKR_BUFFER_TOO_SMALL, se1, none, none)) ∧
    (se1.outsize ≠ 0 → len < se1.outsize →
      C_Encrypt se1 true len host =
        (CK_RV.CKR_BUFFER_TOO_SMALL, se1, some se1.outsize, none)) ∧
    (se2.outsize ≠ 0 →
      C_Decrypt se2 false len host = (CK_RV.CKR_OK, se2, some se2.outsize, none)) ∧
    (se2.outsize = 0 →
      C_Decrypt se2 false len host = (CK_RV.CKR_BUFFER_TOO_SMALL, se2, none, none)) ∧
    (se2.outsize ≠ 0 → len < se2.outsize →
      C_Decrypt se2 true len host =
        (CK_RV.CKR_BUFFER_TOO_SMALL, se2, some se2.outsize, none)) ∧
    (se3.outsize ≠ 0 →
      C_Sign se3 false len host = (CK_RV.CKR_OK, se3, some se3.outsize, none)) ∧
    (se3.outsize = 0 →
      C_Sign se3 false len host = (CK_RV.CKR_BUFFER_TOO_SMALL, se3, none, none)) ∧
    (se3.outsize ≠ 0 → len < se3.outsize →
      C_Sign se3 true len host =
        (CK_RV.CKR_BUFFER_TOO_SMALL, se3, some se3.outsize, none)) := by
  refine ⟨?_, ?_, ?_, ?_, ?_, ?_, ?_, ?_, ?_⟩ <;>
    intro hout <;> simp [C_Encrypt, C_Decrypt, C_Sign, h1, h2, h3, hout] <;>
    intro hlen <;> simp [hlen]

/-- Witness for C6 at a concrete session: probing with a NULL buffer
reports the 256-byte output size, and a 255-byte buffer is rejected as
too small with the session unchanged. -/
theorem C6_output_size_probing_witness :
    C_Encrypt c6_enc_session false 0 none =
      (CK_RV.CKR_OK, c6_enc_session, some 256, none) ∧
    C_Decrypt c6_dec_session false 0 none =
      (CK_RV.CKR_BUFFER_TOO_SMALL, c6_dec_session, none, none) ∧
    C_Sign c6_sign_session true 255 none =
      (CK_RV.CKR_BUFFER_TOO_SMALL, c6_sign_session, some 256, none) := by
  have h := C6_output_size_probing c6_enc_session c6_dec_session
    c6_sign_session 255 none rfl rfl rfl
  refine ⟨?_, ?_, ?_⟩
  · have := h.1 (by decide)
    simpa using this
  · have := h.2.2.2.2.1 rfl
    simpa using this
  · have := h.2.2.2.2.2.2.2.2 (by decide) (by decide)
    simpa using this

/-- Claim C9: on a session bound to a hardware token whose
local-authentication context is absent, `C_Login` with a non-null PIN
returns `CKR_OK` without invoking the authentication primitive and
without touching the logged-in flag, so `C_GetSessionInfo` still reports
the public-session state; more generally the logged-in flag becomes set
only when the context exists or the PIN is null. -/
theorem C9_login_without_lacontext (t : login_token)
    (authResult : Nat → CK_RV) (hla : t.lacontext = false) :
    C_Login (some t) true authResult = (CK_RV.CKR_OK, some t, 0) ∧
    (t.logged_in = false →
      session_info_state (C_Login (some t) true authResult).2.1 =
        CKS_RO_PUBLIC_SESSION) ∧
    (∀ (u t' : login_token) (pinPresent : Bool),
      (C_Login (some u) pinPresent authResult).2.1 = some t' →
      t'.logged_in = true →
      u.logged_in = true ∨ u.lacontext = true ∨ pinPresent = false) := by
  refine ⟨by simp [C_Login, hla], ?_, ?_⟩
  · intro hlog
    simp [C_Login, hla, session_info_state, hlog]
  · intro u t' pinPresent hres hlog
    by_cases hpin : pinPresent
    · by_cases hula : u.lacontext
      · right; left; exact hula
      · left
        simp [C_Login, hpin, eq_false_of_ne_true (by simpa using hula)] at hres
        subst hres
        exact hlog
    · right; right; simpa using hpin

/-- Witness for C9: a token with no local-authentication context, PIN
supplied, primitive always failing — the login still succeeds, makes no
authentication call, and leaves the session public. -/
theorem C9_login_without_lacontext_witness :
    C_Login (some ⟨false, false, 3⟩) true (fun _ => CK_RV.CKR_GENERAL_ERROR) =
      (CK_RV.CKR_OK, some ⟨false, false, 3⟩, 0) ∧
    session_info_state
        (C_Login (some ⟨false, false, 3⟩) true
          (fun _ => CK_RV.CKR_GENERAL_ERROR)).2.1 = CKS_RO_PUBLIC_SESSION := by
  have h := C9_login_without_lacontext ⟨false, false, 3⟩
    (fun _ => CK_RV.CKR_GENERAL_ERROR) rfl
  exact ⟨h.1, h.2.1 rfl⟩

/-- Claim C10: `C_FindObjectsInit` on a valid session always returns
`CKR_OK` and modifies only the search cursor (reset to 0) and the search
template copy; operation state, held key, digest context, token binding
and every other field are unchanged, with no precondition on the
operation state, so it succeeds while a crypto operation is active. -/
theorem C10_find_objects_init_frame (se : session)
    (template : List CK_ATTRIBUTE) :
    (C_FindObjectsInit se template).1 = CK_RV.CKR_OK ∧
    (C_FindObjectsInit se template).2 =
      { se with obj_search_index := 0,
                search_attrs := template.map copy_search_attr } ∧
    (C_FindObjectsInit se template).2.obj_search_index = 0 ∧
    (C_FindObjectsInit se template).2.search_attrs =
      template.map copy_search_attr ∧
    (C_FindObjectsInit se template).2.state = se.state ∧
    (C_FindObjectsInit se template).2.key = se.key ∧
    (C_FindObjectsInit se template).2.mdc = se.mdc ∧
    (C_FindObjectsInit se template).2.token = se.token ∧
    (C_FindObjectsInit se template).2.obj_list = se.obj_list ∧
    (C_FindObjectsInit se template).2.outsize = se.outsize ∧
    (C_FindObjectsInit se template).2.alg = se.alg ∧
    (C_FindObjectsInit se template).2.dalg = se.dalg ∧
    (C_FindObjectsInit se template).2.hash_alg = se.hash_alg ∧
    (C_FindObjectsInit se template).2.slot_id = se.slot_id :=
  ⟨rfl, rfl, rfl, rfl, rfl, rfl, rfl, rfl, rfl, rfl, rfl, rfl, rfl, rfl⟩

/-- Claim C2 (amended): on a valid session in state `none`, each of the
four init calls either succeeds — entering the corresponding init state,
which requires that the key object exists, its class matches (public for
encrypt/verify, private for decrypt/sign), the mechanism is supported for
that operation and the parameters validate, and additionally for
decrypt/sign/verify that the capability flag is set — or fails leaving
the session (and so the state `none`) unchanged; for decrypt, sign and
verify an unset capability flag (with the earlier checks passing) yields
exactly `CKR_KEY_FUNCTION_NOT_PERMITTED`.  `C_EncryptInit` performs no
`pubcanencrypt` capability check. -/
theorem C2_init_preconditions (mechlist : List mechanism_map)
    (param_map : List param_map_entry) (se : session) (m : CK_MECHANISM)
    (object : Nat) (hst : se.state = s_state.NO_PENDING) :
    (((C_EncryptInit mechlist param_map se (some m) object).1 = CK_RV.CKR_OK ∧
      (C_EncryptInit mechlist param_map se (some m) object).2.state = s_state.E_INIT ∧
      ∃ o id mm r, se.obj_list[handle_dec object]? = some o ∧
        o.objClass = CKO_PUBLIC_KEY ∧ o.id = some id ∧
        get_mechmap mechlist m.mechanism = some mm ∧
        mm.usage_flags &&& CKF_ENCRYPT ≠ 0 ∧
        mech_param_validate param_map m mm = some r) ∨
     ((C_EncryptInit mechlist param_map se (some m) object).1 ≠ CK_RV.CKR_OK ∧
      (C_EncryptInit mechlist param_map se (some m) object).2 = se)) ∧
    (((C_DecryptInit mechlist param_map se (some m) object).1 = CK_RV.CKR_OK ∧
      (C_DecryptInit mechlist param_map se (some m) object).2.state = s_state.D_INIT ∧
      ∃ o id mm r, se.obj_list[handle_dec object]? = some o ∧
        o.objClass = CKO_PRIVATE_KEY ∧ o.id = some id ∧
        id.privcandecrypt = true ∧
        get_mechmap mechlist m.mechanism = some mm ∧
        mm.usage_flags &&& CKF_DECRYPT ≠ 0 ∧
        mech_param_validate param_map m mm = some r) ∨
     ((C_DecryptInit mechlist param_map se (some m) object).1 ≠ CK_RV.CKR_OK ∧
      (C_DecryptInit mechlist param_map se (some m) object).2 = se)) ∧
    (((C_SignInit mechlist param_map se m object).1 = CK_RV.CKR_OK ∧
      (C_SignInit mechlist param_map se m object).2.state = s_state.S_INIT ∧
      ∃ o id mm r, se.obj_list[handle_dec object]? = some o ∧
        o.objClass = CKO_PRIVATE_KEY ∧ o.id = some id ∧
        id.privcansign = true ∧
        get_mechmap mechlist m.mechanism = some mm ∧
        mm.usage_flags &&& CKF_SIGN ≠ 0 ∧
        mech_param_validate param_map m mm = some r) ∨
     ((C_SignInit mechlist param_map se m object).1 ≠ CK_RV.CKR_OK ∧
      (C_SignInit mechlist param_map se m object).2 = se)) ∧
    (((C_VerifyInit mechlist param_map se m object).1 = CK_RV.CKR_OK ∧
      (C_VerifyInit mechlist param_map se m object).2.state = s_state.V_INIT ∧
      ∃ o id mm r, se.obj_list[handle_dec object]? = some o ∧
        o.objClass = CKO_PUBLIC_KEY ∧ o.id = some id ∧
        id.pubcanverify = true ∧
        get_mechmap mechlist m.mechanism = some mm ∧
        mm.usage_flags &&& CKF_VERIFY ≠ 0 ∧
        mech_param_validate param_map m mm = some r) ∨
     ((C_VerifyInit mechlist param_map se m object).1 ≠ CK_RV.CKR_OK ∧
      (C_VerifyInit mechlist param_map se m object).2 = se)) ∧
    (∀ o id, se.obj_list[handle_dec object]? = some o →
      o.objClass = CKO_PRIVATE_KEY → o.id = some id →
      id.privcandecrypt = false →
      C_DecryptInit mechlist param_map se (some m) object =
        (CK_RV.CKR_KEY_FUNCTION_NOT_PERMITTED, se)) ∧
    (∀ o id, se.obj_list[handle_dec object]? = some o → o.id = some id →
      id.privcansign = false →
      C_SignInit mechlist param_map se m object =
        (CK_RV.CKR_KEY_FUNCTION_NOT_PERMITTED, se)) ∧
    (∀ o id, se.obj_list[handle_dec object]? = some o → o.id = some id →
      id.pubcanverify = false →
      C_VerifyInit mechlist param_map se m object =
        (CK_RV.CKR_KEY_FUNCTION_NOT_PERMITTED, se)) := by
  refine ⟨?_, ?_, ?_, ?_, ?_, ?_, ?_⟩
  · -- C_EncryptInit
    by_cases hlt : handle_dec object < se.obj_list.length
    · by_cases hclass : se.obj_list[handle_dec object].objClass = CKO_PUBLIC_KEY
      · rcases hid : se.obj_list[handle_dec object].id with _ | id
        · right; simp [C_EncryptInit, hlt, hst, hclass, hid]
        · rcases hmm : get_mechmap mechlist m.mechanism with _ | mm
          · right; simp [C_EncryptInit, hlt, hst, hclass, hid, hmm]
          · by_cases hflag : mm.usage_flags &&& CKF_ENCRYPT = 0
            · right; simp [C_EncryptInit, hlt, hst, hclass, hid, hmm, hflag]
            · rcases hval : mech_param_validate param_map m mm with _ | r
              · right; simp [C_EncryptInit, hlt, hst, hclass, hid, hmm, hflag, hval]
              · left
                refine ⟨?_, ?_, se.obj_list[handle_dec object], id, mm, r,
                        List.getElem?_eq_getElem hlt, hclass, hid, rfl, hflag, hval⟩ <;>
                  simp [C_EncryptInit, hlt, hst, hclass, hid, hmm, hflag, hval]
      · right; simp [C_EncryptInit, hlt, hst, hclass]
    · right; simp [C_EncryptInit, hlt, hst]
  · -- C_DecryptInit
    by_cases hlt : handle_dec object < se.obj_list.length
    · by_cases hclass : se.obj_list[handle_dec object].objClass = CKO_PRIVATE_KEY
      · rcases hid : se.obj_list[handle_dec object].id with _ | id
        · right; simp [C_DecryptInit, hlt, hst, hclass, hid]
        · by_cases hcap : id.privcandecrypt
          · rcases hmm : get_mechmap mechlist m.mechanism with _ | mm
            · right; simp [C_DecryptInit, hlt, hst, hclass, hid, hcap, hmm]
            · by_cases hflag : mm.usage_flags &&& CKF_DECRYPT = 0
              · right; simp [C_DecryptInit, hlt, hst, hclass, hid, hcap, hmm, hflag]
              · rcases hval : mech_param_validate param_map m mm with _ | r
                · right
                  simp [C_DecryptInit, hlt, hst, hclass, hid, hcap, hmm, hflag, hval]
                · left
                  refine ⟨?_, ?_, se.obj_list[handle_dec object], id, mm, r,
                          List.getElem?_eq_getElem hlt, hclass, hid, hcap, rfl,
                          hflag, hval⟩ <;>
                    simp [C_DecryptInit, hlt, hst, hclass, hid, hcap, hmm, hflag, hval]
          · right; simp [C_DecryptInit, hlt, hst, hclass, hid, hcap]
      · right; simp [C_DecryptInit, hlt, hst, hclass]
    · right; simp [C_DecryptInit, hlt, hst]
  · -- C_SignInit
    by_cases hlt : handle_dec object < se.obj_list.length
    · rcases hid : se.obj_list[handle_dec object].id with _ | id
      · right; simp [C_SignInit, hlt, hst, hid]
      · by_cases hcap : id.privcansign
        · by_cases hclass : se.obj_list[handle_dec object].objClass = CKO_PRIVATE_KEY
          · rcases hmm : get_mechmap mechlist m.mechanism with _ | mm
            · right; simp [C_SignInit, hlt, hst, hid, hcap, hclass, hmm]
            · by_cases hflag : mm.usage_flags &&& CKF_SIGN = 0
              · right; simp [C_SignInit, hlt, hst, hid, hcap, hclass, hmm, hflag]
              · rcases hval : mech_param_validate param_map m mm with _ | r
                · right
                  simp [C_SignInit, hlt, hst, hid, hcap, hclass, hmm, hflag, hval]
                · left
                  refine ⟨?_, ?_, se.obj_list[handle_dec object], id, mm, r,
                          List.getElem?_eq_getElem hlt, hclass, hid, hcap, rfl,
                          hflag, hval⟩ <;>
                    simp [C_SignInit, hlt, hst, hid, hcap, hclass, hmm, hflag, hval]
          · right; simp [C_SignInit, hlt, hst, hid, hcap, hclass]
        · right; simp [C_SignInit, hlt, hst, hid, hcap]
    · right; simp [C_SignInit, hlt, hst]
  · -- C_VerifyInit
    by_cases hlt : handle_dec object < se.obj_list.length
    · rcases hid : se.obj_list[handle_dec object].id with _ | id
      · right; simp [C_VerifyInit, hlt, hst, hid]
      · by_cases hcap : id.pubcanverify
        · by_cases hclass : se.obj_list[handle_dec object].objClass = CKO_PUBLIC_KEY
          · rcases hmm : get_mechmap mechlist m.mechanism with _ | mm
            · right; simp [C_VerifyInit, hlt, hst, hid, hcap, hclass, hmm]
            · by_cases hflag : mm.usage_flags &&& CKF_VERIFY = 0
              · right; simp [C_VerifyInit, hlt, hst, hid, hcap, hclass, hmm, hflag]
              · rcases hval : mech_param_validate param_map m mm with _ | r
                · right
                  simp [C_VerifyInit, hlt, hst, hid, hcap, hclass, hmm, hflag, hval]
                · left
                  refine ⟨?_, ?_, se.obj_list[handle_dec object], id, mm, r,
                          List.getElem?_eq_getElem hlt, hclass, hid, hcap, rfl,
                          hflag, hval⟩ <;>
                    simp [C_VerifyInit, hlt, hst, hid, hcap, hclass, hmm, hflag, hval]
          · right; simp [C_VerifyInit, hlt, hst, hid, hcap, hclass]
        · right; simp [C_VerifyInit, hlt, hst, hid, hcap]
    · right; simp [C_VerifyInit, hlt, hst]
  · -- decrypt capability refusal
    intro o id ho hclass hid hcap
    obtain ⟨hlt, hoe⟩ := List.getElem?_eq_some.mp ho
    simp [C_DecryptInit, hlt, hst, hoe, hclass, hid, hcap]
  · -- sign capability refusal
    intro o id ho hid hcap
    obtain ⟨hlt, hoe⟩ := List.getElem?_eq_some.mp ho
    simp [C_SignInit, hlt, hst, hoe, hid, hcap]
  · -- verify capability refusal
    intro o id ho hid hcap
    obtain ⟨hlt, hoe⟩ := List.getElem?_eq_some.mp ho
    simp [C_VerifyInit, hlt, hst, hoe, hid, hcap]

/-- Witness for C2 at a concrete input: decrypt-init and sign-init on a
private key with the capability flags cleared fail with
`CKR_KEY_FUNCTION_NOT_PERMITTED` and leave the session unchanged. -/
theorem C2_init_preconditions_witness :
    C_DecryptInit [] [] c2_nocap_session (some ⟨1, none, 0⟩) 1 =
      (CK_RV.CKR_KEY_FUNCTION_NOT_PERMITTED, c2_nocap_session) ∧
    C_SignInit [] [] c2_nocap_session ⟨1, none, 0⟩ 1 =
      (CK_RV.CKR_KEY_FUNCTION_NOT_PERMITTED, c2_nocap_session) := by
  have h := C2_init_preconditions [] [] c2_nocap_session ⟨1, none, 0⟩ 1 rfl
  exact ⟨h.2.2.2.2.1 c2_nocap_obj c2_nocap_id (by decide) (by decide) (by decide)
           (by decide),
         h.2.2.2.2.2.1 c2_nocap_obj c2_nocap_id (by decide) (by decide) (by decide)⟩

/-- Helper for C3: characterization of the OAEP branch of
`mech_param_validate`. -/
theorem c3_oaep_validate_iff (param_map : List param_map_entry)
    (mm : mechanism_map) (m : CK_MECHANISM) (oaep : CK_RSA_PKCS_OAEP_PARAMS)
    (hp : mm.parameters = param_types.OAEP)
    (hm : m.pParameter = some (mech_params.oaep oaep)) :
    (mech_param_validate param_map m mm).isSome ↔
      (m.ulParameterLen = sizeof_CK_RSA_PKCS_OAEP_PARAMS ∧
       (oaep.source = 0 ∨ (oaep.source = CKZ_DATA_SPECIFIED ∧
          oaep.pSourceData = none ∧ oaep.ulSourceDataLen = 0)) ∧
       ∃ e ∈ param_map, m.mechanism = e.base_type ∧
         oaep.hashAlg = e.hash_alg ∧ oaep.mgf = e.mgf) := by
  by_cases hlen : m.ulParameterLen = sizeof_CK_RSA_PKCS_OAEP_PARAMS
  · by_cases hc2 : oaep.source ≠ 0 ∧ oaep.source ≠ CKZ_DATA_SPECIFIED
    · refine iff_of_false (by simp [mech_param_validate, hp, hm, hlen, hc2]) ?_
      rintro ⟨-, hsrc, -⟩
      rcases hsrc with h0 | ⟨hd, -, -⟩
      · exact hc2.1 h0
      · exact hc2.2 hd
    · by_cases hc3 : oaep.source = CKZ_DATA_SPECIFIED ∧
          (oaep.pSourceData.isSome ∨ oaep.ulSourceDataLen ≠ 0)
      · refine iff_of_false
          (by simp [mech_param_validate, hp, hm, hlen, hc2, hc3]) ?_
        rintro ⟨-, hsrc, -⟩
        rcases hsrc with h0 | ⟨-, hd, hl⟩
        · rw [h0] at hc3
          exact absurd hc3.1 (by simp [CKZ_DATA_SPECIFIED])
        · rcases hc3.2 with hs | hs
          · rw [hd] at hs
            simp at hs
          · exact hs hl
      · have hsrcok : oaep.source = 0 ∨ (oaep.source = CKZ_DATA_SPECIFIED ∧
            oaep.pSourceData = none ∧ oaep.ulSourceDataLen = 0) := by
          by_cases hs0 : oaep.source = 0
          · exact Or.inl hs0
          · have hsd : oaep.source = CKZ_DATA_SPECIFIED := by
              by_contra hne
              exact hc2 ⟨hs0, hne⟩
            right
            refine ⟨hsd, ?_, ?_⟩
            · rcases hps : oaep.pSourceData with _ | v
              · rfl
              · exact absurd ⟨hsd, Or.inl (by simp [hps])⟩ hc3
            · by_contra hl
              exact hc3 ⟨hsd, Or.inr hl⟩
        rcases hfind : (param_map.find? (fun e =>
            m.mechanism == e.base_type && oaep.hashAlg == e.hash_alg &&
            oaep.mgf == e.mgf)) with _ | e
        · refine iff_of_false
            (by simp [mech_param_validate, hp, hm, hlen, hc2, hc3, hfind]) ?_
          rintro ⟨-, -, e, he, h1, h2, h3⟩
          have := List.find?_eq_none.mp hfind e he
          simp [h1, h2, h3] at this
        · refine iff_of_true
            (by simp [mech_param_validate, hp, hm, hlen, hc2, hc3, hfind]) ?_
          have he := List.find?_some hfind
          have hmem := List.mem_of_find?_eq_some hfind
          simp only [Bool.and_eq_true, beq_iff_eq] at he
          exact ⟨hlen, hsrcok, e, hmem, he.1.1, he.1.2, he.2⟩
  · refine iff_of_false (by simp [mech_param_validate, hp, hm, hlen]) ?_
    rintro ⟨h, -, -⟩
    exact hlen h

/-- Helper for C3: characterization of the PSS branch of
`mech_param_validate`. -/
theorem c3_pss_validate_iff (param_map : List param_map_entry)
    (mm : mechanism_map) (m : CK_MECHANISM) (pss : CK_RSA_PKCS_PSS_PARAMS)
    (hp : mm.parameters = param_types.PSS)
    (hm : m.pParameter = some (mech_params.pss pss)) :
    (mech_param_validate param_map m mm).isSome ↔
      (m.ulParameterLen = sizeof_CK_RSA_PKCS_PSS_PARAMS ∧
       ∃ e ∈ param_map, m.mechanism = e.base_type ∧
         pss.hashAlg = e.hash_alg ∧ pss.mgf = e.mgf ∧ pss.sLen = e.slen) := by
  by_cases hlen : m.ulParameterLen = sizeof_CK_RSA_PKCS_PSS_PARAMS
  · rcases hfind : (param_map.find? (fun e =>
        m.mechanism == e.base_type && pss.hashAlg == e.hash_alg &&
        pss.mgf == e.mgf && pss.sLen == e.slen)) with _ | e
    · refine iff_of_false
        (by simp [mech_param_validate, hp, hm, hlen, hfind]) ?_
      rintro ⟨-, e, he, h1, h2, h3, h4⟩
      have := List.find?_eq_none.mp hfind e he
      simp [h1, h2, h3, h4] at this
    · refine iff_of_true
        (by simp [mech_param_validate, hp, hm, hlen, hfind]) ?_
      have he := List.find?_some hfind
      have hmem := List.mem_of_find?_eq_some hfind
      simp only [Bool.and_eq_true, beq_iff_eq] at he
      exact ⟨hlen, e, hmem, he.1.1.1, he.1.1.2, he.1.2, he.2⟩
  · refine iff_of_false (by simp [mech_param_validate, hp, hm, hlen]) ?_
    rintro ⟨h, -⟩
    exact hlen h

/-- Claim C3: OAEP/PSS parameter validation.  With an OAEP (resp. PSS)
parameter block, validation fails when the length differs from the
declared structure size or (OAEP) when `source` is neither 0 nor
data-specified-with-empty-data; a NULL parameter pointer always fails;
otherwise it succeeds if and only if the fixed parameter map has a row
matching `(base-mechanism, hash-alg, MGF)` (plus salt length for PSS),
and the resolved encrypt, single-shot sign, digest-sign and hash
identifiers come from that (first matching) row. -/
theorem C3_mech_param_validation (param_map : List param_map_entry)
    (mm : mechanism_map) (m : CK_MECHANISM) :
    (∀ oaep, mm.parameters = param_types.OAEP →
      m.pParameter = some (mech_params.oaep oaep) →
      ((mech_param_validate param_map m mm).isSome ↔
        (m.ulParameterLen = sizeof_CK_RSA_PKCS_OAEP_PARAMS ∧
         (oaep.source = 0 ∨ (oaep.source = CKZ_DATA_SPECIFIED ∧
            oaep.pSourceData = none ∧ oaep.ulSourceDataLen = 0)) ∧
         ∃ e ∈ param_map, m.mechanism = e.base_type ∧
           oaep.hashAlg = e.hash_alg ∧ oaep.mgf = e.mgf))) ∧
    (∀ pss, mm.parameters = param_types.PSS →
      m.pParameter = some (mech_params.pss pss) →
      ((mech_param_validate param_map m mm).isSome ↔
        (m.ulParameterLen = sizeof_CK_RSA_PKCS_PSS_PARAMS ∧
         ∃ e ∈ param_map, m.mechanism = e.base_type ∧
           pss.hashAlg = e.hash_alg ∧ pss.mgf = e.mgf ∧ pss.sLen = e.slen))) ∧
    (mm.parameters ≠ param_types.NONE → m.pParameter = none →
      mech_param_validate param_map m mm = none) ∧
    (∀ oaep r, mm.parameters = param_types.OAEP →
      m.pParameter = some (mech_params.oaep oaep) →
      mech_param_validate param_map m mm = some r →
      ∃ e, param_map.find? (fun e =>
          m.mechanism == e.base_type && oaep.hashAlg == e.hash_alg &&
          oaep.mgf == e.mgf) = some e ∧
        r = ⟨e.encalg, e.signalg, e.dsignalg, e.hash_alg⟩) ∧
    (∀ pss r, mm.parameters = param_types.PSS →
      m.pParameter = some (mech_params.pss pss) →
      mech_param_validate param_map m mm = some r →
      ∃ e, param_map.find? (fun e =>
          m.mechanism == e.base_type && pss.hashAlg == e.hash_alg &&
          pss.mgf == e.mgf && pss.sLen == e.slen) = some e ∧
        r = ⟨e.encalg, e.signalg, e.dsignalg, e.hash_alg⟩) := by
  refine ⟨fun oaep hp hm => c3_oaep_validate_iff param_map mm m oaep hp hm,
          fun pss hp hm => c3_pss_validate_iff param_map mm m pss hp hm,
          ?_, ?_, ?_⟩
  · intro hnp hm
    rcases hp : mm.parameters
    · exact absurd hp hnp
    · simp [mech_param_validate, hp, hm]
    · simp [mech_param_validate, hp, hm]
  · intro oaep r hp hm hval
    simp only [mech_param_validate, hp, hm] at hval
    rcases hfind : (param_map.find? (fun e =>
        m.mechanism == e.base_type && oaep.hashAlg == e.hash_alg &&
        oaep.mgf == e.mgf)) with _ | e
    · rw [hfind] at hval
      split_ifs at hval
    · rw [hfind] at hval
      split_ifs at hval
      simp only [Option.some.injEq] at hval
      exact ⟨e, hfind, hval.symm⟩
  · intro pss r hp hm hval
    simp only [mech_param_validate, hp, hm] at hval
    rcases hfind : (param_map.find? (fun e =>
        m.mechanism == e.base_type && pss.hashAlg == e.hash_alg &&
        pss.mgf == e.mgf && pss.sLen == e.slen)) with _ | e
    · rw [hfind] at hval
      split_ifs at hval
    · rw [hfind] at hval
      split_ifs at hval
      simp only [Option.some.injEq] at hval
      exact ⟨e, hfind, hval.symm⟩

/-- Helper for C4: every lifecycle event preserves the invariant. -/
theorem c4_inv_step (t t' : token_state) (h : token_step t t')
    (hi : token_inv t) : token_inv t' := by
  obtain ⟨h1, h2⟩ := hi
  cases h with
  | open_session ha hb =>
      have hc := h1 hb
      constructor <;> intro hf <;> simp_all <;> omega
  | close_session ha hb =>
      have hc := h1 hb
      by_cases hin : t.inSlot <;> by_cases hr : t.refcount - 1 > 0 <;>
        constructor <;> intro hf <;> simp_all [slot_entry_free_m] <;> omega
  | remove_token ha hb =>
      have hc := h1 hb
      by_cases hr : t.refcount - 1 > 0 <;>
        constructor <;> intro hf <;> simp_all [slot_entry_free_m] <;> omega
  | login_token hb =>
      have hc := h1 hb
      constructor <;> intro hf <;> simp_all

/-- Helper for C4: the invariant holds in every reachable state. -/
theorem c4_inv_reachable (t : token_state) (h : token_reachable t) :
    token_inv t := by
  induction h with
  | refl =>
      constructor <;> intro hf <;> simp_all [add_token_id_m]
  | tail hab hstep ih => exact c4_inv_step _ _ hstep ih

/-- Claim C4: a token is created with refcount 1; in every reachable
state, while the slot still holds the token the count equals 1 plus the
number of open sessions bound to it; the token is freed exactly when the
count reaches 0; and any step that drops the count from 2 to 1 logs the
token out. -/
theorem C4_token_refcount (t : token_state) (h : token_reachable t) :
    add_token_id_m.refcount = 1 ∧
    (t.inSlot = true → t.refcount = 1 + t.sessions) ∧
    (t.freed = true ↔ t.refcount = 0) ∧
    (∀ t', token_step t t' → t.refcount = 2 → t'.refcount = 1 →
      t'.logged_in = false) := by
  obtain ⟨h1, h2⟩ := c4_inv_reachable t h
  refine ⟨rfl, ?_, ?_, ?_⟩
  · intro hin
    cases hfr : t.freed with
    | false =>
        have := (h1 hfr).1
        rw [hin] at this
        simpa using this
    | true => exact absurd (h2 hfr).2 (by simp [hin])
  · constructor
    · intro hf
      exact (h2 hf).1
    · intro hzero
      cases hfr : t.freed with
      | false =>
          have := (h1 hfr).2
          omega
      | true => rfl
  · intro t' hstep h2c h1c
    cases hstep with
    | open_session ha hb =>
        simp at h1c
        omega
    | close_session ha hb => simp [slot_entry_free_m, h2c]
    | remove_token ha hb => simp [slot_entry_free_m, h2c]
    | login_token hb =>
        simp at h1c
        omega

/-- Witness for C4 at the concrete initial state produced by
`add_token_id`. -/
theorem C4_token_refcount_witness :
    add_token_id_m.refcount = 1 ∧
    (add_token_id_m.inSlot = true →
      add_token_id_m.refcount = 1 + add_token_id_m.sessions) ∧
    (add_token_id_m.freed = true ↔ add_token_id_m.refcount = 0) ∧
    (∀ t', token_step add_token_id_m t' → add_token_id_m.refcount = 2 →
      t'.refcount = 1 → t'.logged_in = false) :=
  C4_token_refcount add_token_id_m Relation.ReflTransGen.refl

/-- Helper for C5: length of the object list built from an enumerated
identity list. -/
theorem c5_len (ids : List id_info) (n : Nat) :
    ((ids.enumFrom n).flatMap id_triple).length = 3 * ids.length := by
  induction ids generalizing n with
  | nil => simp
  | cons a as ih =>
      simp only [List.enumFrom, List.flatMap_cons, List.length_append,
        List.length_cons, id_triple]
      rw [ih]
      simp
      omega

/-- Helper for C5: the three objects of identity `i` sit at positions
`3i`, `3i+1`, `3i+2` of the built list, in the order certificate, public
key, private key. -/
theorem c5_idx (ids : List id_info) (n i : Nat) (o : id_info)
    (ho : ids[i]? = some o) :
    ((ids.enumFrom n).flatMap id_triple)[3 * i]? = some (cert_object (n + i) o) ∧
    ((ids.enumFrom n).flatMap id_triple)[3 * i + 1]? = some (pub_object (n + i) o) ∧
    ((ids.enumFrom n).flatMap id_triple)[3 * i + 2]? = some (priv_object (n + i) o) := by
  induction ids generalizing n i with
  | nil => simp at ho
  | cons a as ih =>
      cases i with
      | zero =>
          simp only [List.getElem?_cons_zero, Option.some.injEq] at ho
          subst ho
          simp [List.enumFrom, id_triple]
      | succ i =>
          simp only [List.getElem?_cons_succ] at ho
          have h3 : 3 * (i + 1) = 3 * i + 1 + 1 + 1 := by omega
          have hn : n + (i + 1) = (n + 1) + i := by omega
          obtain ⟨ih1, ih2, ih3⟩ := ih (n + 1) i ho
          rw [h3, hn]
          simp only [List.enumFrom, id_triple, List.flatMap_cons,
            List.cons_append, List.nil_append, List.getElem?_cons_succ]
          exact ⟨ih1, ih2, ih3⟩

/-- Helper for C5: all three objects of an identity carry a `CKA_ID`
attribute holding exactly the index byte string. -/
theorem c5_id_attr (idx : Nat) (o : id_info) :
    find_attribute (cert_object idx o) CKA_ID =
      some (mkAttr CKA_ID (get_index_bytes idx)) ∧
    find_attribute (pub_object idx o) CKA_ID =
      some (mkAttr CKA_ID (get_index_bytes idx)) ∧
    find_attribute (priv_object idx o) CKA_ID =
      some (mkAttr CKA_ID (get_index_bytes idx)) := by
  refine ⟨?_, ?_, ?_⟩ <;>
    simp [find_attribute, cert_object, pub_object, priv_object, mkAttr,
      CKA_CLASS, CKA_ID]

/-- Helper for C5: `get_index_bytes` is the minimum-length big-endian
encoding of the index — it decodes back to the index, and its length is 1
for indices below 256, 2 below 65536, 3 below 2^24, else 4. -/
theorem c5_encoding (i : Nat) (h : i < 2 ^ 32) :
    from_bytes_be (get_index_bytes i) = i ∧
    (get_index_bytes i).length =
      (if i < 2 ^ 8 then 1 else if i < 2 ^ 16 then 2
       else if i < 2 ^ 24 then 3 else 4) := by
  have hmod : i % 2 ^ 32 = i := Nat.mod_eq_of_lt h
  by_cases h8 : i < 2 ^ 8
  · have e24 : i >>> 24 = 0 := by rw [Nat.shiftRight_eq_div_pow]; omega
    have e16 : i >>> 16 = 0 := by rw [Nat.shiftRight_eq_div_pow]; omega
    have e8 : i >>> 8 = 0 := by rw [Nat.shiftRight_eq_div_pow]; omega
    have hb : get_index_bytes i = [i % 256] := by
      unfold get_index_bytes
      rw [hmod]
      simp [e24, e16, e8, List.range_succ]
    rw [hb]
    refine ⟨?_, ?_⟩
    · unfold from_bytes_be
      simp
      omega
    · simp only [List.length_cons, List.length_nil]
      split_ifs <;> omega
  · by_cases h16 : i < 2 ^ 16
    · have e24 : i >>> 24 = 0 := by rw [Nat.shiftRight_eq_div_pow]; omega
      have e16 : i >>> 16 = 0 := by rw [Nat.shiftRight_eq_div_pow]; omega
      have e8 : i >>> 8 ≠ 0 := by rw [Nat.shiftRight_eq_div_pow]; omega
      have hb : get_index_bytes i = [(i >>> 8) % 256, i % 256] := by
        unfold get_index_bytes
        rw [hmod]
        simp [e24, e16, e8, List.range_succ]
      rw [hb]
      refine ⟨?_, ?_⟩
      · unfold from_bytes_be
        simp only [List.foldl_cons, List.foldl_nil, Nat.shiftRight_eq_div_pow]
        omega
      · simp only [List.length_cons, List.length_nil]
        split_ifs <;> omega
    · by_cases h24 : i < 2 ^ 24
      · have e24 : i >>> 24 = 0 := by rw [Nat.shiftRight_eq_div_pow]; omega
        have e16 : i >>> 16 ≠ 0 := by rw [Nat.shiftRight_eq_div_pow]; omega
        have hb : get_index_bytes i =
            [(i >>> 16) % 256, (i >>> 8) % 256, i % 256] := by
          unfold get_index_bytes
          rw [hmod]
          simp [e24, e16, List.range_succ]
        rw [hb]
        refine ⟨?_, ?_⟩
        · unfold from_bytes_be
          simp only [List.foldl_cons, List.foldl_nil, Nat.shiftRight_eq_div_pow]
          omega
        · simp only [List.length_cons, List.length_nil]
          split_ifs <;> omega
      · have e24 : i >>> 24 ≠ 0 := by rw [Nat.shiftRight_eq_div_pow]; omega
        have hb : get_index_bytes i =
            [(i >>> 24) % 256, (i >>> 16) % 256, (i >>> 8) % 256, i % 256] := by
          unfold get_index_bytes
          rw [hmod]
          simp [e24, List.range_succ]
        rw [hb]
        refine ⟨?_, ?_⟩
        · unfold from_bytes_be
          simp only [List.foldl_cons, List.foldl_nil, Nat.shiftRight_eq_div_pow]
          omega
        · simp only [List.length_cons, List.length_nil]
          split_ifs <;> omega

/-- Claim C5: from `n` identities the object builder produces exactly
`3n` objects, ordered certificate, public key, private key per identity;
the three objects of identity `i` (0-based) all carry a `CKA_ID`
attribute whose value is `get_index_bytes i`, the minimum-length
big-endian encoding of `i` — one byte for `i < 256`, two for `i < 65536`,
three below `2^24`, else four, never empty — which decodes back to `i`. -/
theorem C5_build_id_objects (ids : List id_info) (i : Nat) (o : id_info)
    (ho : ids[i]? = some o) (h32 : i < 2 ^ 32) :
    (build_id_objects ids).length = 3 * ids.length ∧
    (build_id_objects ids)[3 * i]? = some (cert_object i o) ∧
    (build_id_objects ids)[3 * i + 1]? = some (pub_object i o) ∧
    (build_id_objects ids)[3 * i + 2]? = some (priv_object i o) ∧
    (cert_object i o).objClass = CKO_CERTIFICATE ∧
    (pub_object i o).objClass = CKO_PUBLIC_KEY ∧
    (priv_object i o).objClass = CKO_PRIVATE_KEY ∧
    find_attribute (cert_object i o) CKA_ID =
      some (mkAttr CKA_ID (get_index_bytes i)) ∧
    find_attribute (pub_object i o) CKA_ID =
      some (mkAttr CKA_ID (get_index_bytes i)) ∧
    find_attribute (priv_object i o) CKA_ID =
      some (mkAttr CKA_ID (get_index_bytes i)) ∧
    from_bytes_be (get_index_bytes i) = i ∧
    1 ≤ (get_index_bytes i).length ∧
    (get_index_bytes i).length =
      (if i < 2 ^ 8 then 1 else if i < 2 ^ 16 then 2
       else if i < 2 ^ 24 then 3 else 4) := by
  have hb : build_id_objects ids = (ids.enumFrom 0).flatMap id_triple := rfl
  obtain ⟨hx1, hx2, hx3⟩ := c5_idx ids 0 i o ho
  obtain ⟨ha1, ha2, ha3⟩ := c5_id_attr i o
  obtain ⟨he1, he2⟩ := c5_encoding i h32
  rw [Nat.zero_add] at hx1 hx2 hx3
  refine ⟨by rw [hb]; exact c5_len ids 0, by rw [hb]; exact hx1,
          by rw [hb]; exact hx2, by rw [hb]; exact hx3, rfl, rfl, rfl,
          ha1, ha2, ha3, he1, ?_, he2⟩
  rw [he2]
  split_ifs <;> omega

/-- Witness for C5 on a one-identity token. -/
theorem C5_build_id_objects_witness :
    (build_id_objects [c5_id]).length = 3 * 1 ∧
    (build_id_objects [c5_id])[0]? = some (cert_object 0 c5_id) ∧
    find_attribute (cert_object 0 c5_id) CKA_ID =
      some (mkAttr CKA_ID (get_index_bytes 0)) ∧
    from_bytes_be (get_index_bytes 0) = 0 := by
  have h := C5_build_id_objects [c5_id] 0 c5_id (by decide) (by decide)
  exact ⟨h.1, by simpa using h.2.1, h.2.2.2.2.2.2.2.1,
         h.2.2.2.2.2.2.2.2.2.2.1⟩

/-- Helper for C7: closed form of the `C_GetAttributeValue` loop — the
outputs are the per-entry results in order, and the summary code is the
error of the last failing entry (or the accumulator's start value). -/
theorem c7_fold (obj : obj_info) (template : List ga_template_entry)
    (rv0 : CK_RV) (acc0 : List ga_result) :
    template.foldl (fun acc t =>
        let r := ga_step obj t
        (r.2.getD acc.1, acc.2 ++ [r.1])) (rv0, acc0) =
      ((template.filterMap (fun t => (ga_step obj t).2)).getLastD rv0,
       acc0 ++ template.map (fun t => (ga_step obj t).1)) := by
  induction template generalizing rv0 acc0 with
  | nil => simp
  | cons t ts ih =>
      rcases hstep : (ga_step obj t).2 with _ | c
      · rw [List.foldl_cons]
        simp only [hstep, Option.getD_none]
        rw [ih, List.filterMap_cons_none (by simpa using hstep)]
        simp [List.append_assoc]
      · rw [List.foldl_cons]
        simp only [hstep, Option.getD_some]
        rw [ih, List.filterMap_cons_some (by simpa using hstep),
          List.getLastD_cons, List.append_assoc, List.singleton_append,
          List.map_cons]

/-- Helper for C7: the per-entry loop body never contributes `CKR_OK` as
an error code. -/
theorem c7_step_ne_ok (obj : obj_info) (t : ga_template_entry) :
    (ga_step obj t).2 ≠ some CK_RV.CKR_OK := by
  unfold ga_step
  rcases find_attribute obj t.type with _ | a
  · simp
  · by_cases hv : t.hasValue = false
    · simp [hv]
    · by_cases hl : t.ulValueLen < a.ulValueLen <;> simp [hv, hl]

/-- Helper for C7: a `getLastD` over non-`CKR_OK` codes with a
non-`CKR_OK` default is not `CKR_OK`. -/
theorem c7_getLastD_ne (l : List CK_RV) (d : CK_RV)
    (hl : ∀ c ∈ l, c ≠ CK_RV.CKR_OK) (hd : d ≠ CK_RV.CKR_OK) :
    l.getLastD d ≠ CK_RV.CKR_OK := by
  induction l generalizing d with
  | nil => simpa using hd
  | cons c l ih =>
      rw [List.getLastD_cons]
      exact ih c (fun x hx => hl x (List.mem_cons_of_mem _ hx))
        (hl c (List.mem_cons_self _ _))

/-- Claim C7: `C_GetAttributeValue` on a valid object handle.  The
outputs are one per template entry, each computed independently: an
absent attribute yields the unavailable sentinel and contributes
`CKR_ATTRIBUTE_TYPE_INVALID`; a present attribute with a NULL caller
buffer returns just the exact length; one with a too-small buffer
returns the length and contributes `CKR_BUFFER_TOO_SMALL`; otherwise the
value is copied and its length returned.  The call returns one summary
code — `CKR_OK` exactly when no entry failed, and otherwise the code of
the last failing entry — while per-entry metadata is written for every
entry. -/
theorem C7_get_attribute_value (se : session) (object : Nat)
    (template : List ga_template_entry)
    (hobj : handle_dec object < se.obj_list.length) :
    (C_GetAttributeValue se object template).2 =
      template.map (fun t => (ga_step se.obj_list[handle_dec object] t).1) ∧
    (C_GetAttributeValue se object template).1 =
      (template.filterMap
        (fun t => (ga_step se.obj_list[handle_dec object] t).2)).getLastD
        CK_RV.CKR_OK ∧
    ((C_GetAttributeValue se object template).1 = CK_RV.CKR_OK ↔
      ∀ t ∈ template, (ga_step se.obj_list[handle_dec object] t).2 = none) ∧
    (∀ t : ga_template_entry,
      (find_attribute se.obj_list[handle_dec object] t.type = none →
        ga_step se.obj_list[handle_dec object] t =
          (⟨CK_UNAVAILABLE_INFORMATION, none⟩,
           some CK_RV.CKR_ATTRIBUTE_TYPE_INVALID)) ∧
      (∀ a, find_attribute se.obj_list[handle_dec object] t.type = some a →
        t.hasValue = false →
        ga_step se.obj_list[handle_dec object] t = (⟨a.ulValueLen, none⟩, none)) ∧
      (∀ a, find_attribute se.obj_list[handle_dec object] t.type = some a →
        t.hasValue = true → t.ulValueLen < a.ulValueLen →
        ga_step se.obj_list[handle_dec object] t =
          (⟨a.ulValueLen, none⟩, some CK_RV.CKR_BUFFER_TOO_SMALL)) ∧
      (∀ a, find_attribute se.obj_list[handle_dec object] t.type = some a →
        t.hasValue = true → a.ulValueLen ≤ t.ulValueLen →
        ga_step se.obj_list[handle_dec object] t =
          (⟨a.ulValueLen, some ((a.pValue.getD []).take a.ulValueLen)⟩, none))) := by
  have hga : C_GetAttributeValue se object template =
      ((template.filterMap
        (fun t => (ga_step se.obj_list[handle_dec object] t).2)).getLastD
        CK_RV.CKR_OK,
       [] ++ template.map (fun t => (ga_step se.obj_list[handle_dec object] t).1)) := by
    unfold C_GetAttributeValue
    rw [dif_pos hobj]
    exact c7_fold se.obj_list[handle_dec object] template CK_RV.CKR_OK []
  refine ⟨by rw [hga]; simp, by rw [hga], ?_, ?_⟩
  · rw [hga]
    simp only []
    constructor
    · intro hh
      rw [← List.filterMap_eq_nil_iff]
      rcases hfm : template.filterMap
          (fun t => (ga_step se.obj_list[handle_dec object] t).2) with _ | ⟨c, l⟩
      · rfl
      · rw [hfm, List.getLastD_cons] at hh
        exfalso
        refine c7_getLastD_ne l c ?_ ?_ hh
        · intro x hx
          have : x ∈ template.filterMap
              (fun t => (ga_step se.obj_list[handle_dec object] t).2) := by
            rw [hfm]
            exact List.mem_cons_of_mem _ hx
          obtain ⟨t, -, ht⟩ := List.mem_filterMap.mp this
          intro hxo
          rw [hxo] at ht
          exact c7_step_ne_ok _ _ ht
        · have : c ∈ template.filterMap
              (fun t => (ga_step se.obj_list[handle_dec object] t).2) := by
            rw [hfm]
            exact List.mem_cons_self _ _
          obtain ⟨t, -, ht⟩ := List.mem_filterMap.mp this
          intro hxo
          rw [hxo] at ht
          exact c7_step_ne_ok _ _ ht
    · intro hall
      rw [List.filterMap_eq_nil_iff.mpr hall]
      rfl
  · intro t
    refine ⟨?_, ?_, ?_, ?_⟩
    · intro hfa
      simp [ga_step, hfa]
    · intro a hfa hv
      simp [ga_step, hfa, hv]
    · intro a hfa hv hlen
      simp [ga_step, hfa, hv, hlen]
    · intro a hfa hv hlen
      simp [ga_step, hfa, hv, Nat.not_lt.mpr hlen]

/-- Witness for C7: querying the label with a NULL buffer returns its
exact length, an unknown attribute marks the summary
`CKR_ATTRIBUTE_TYPE_INVALID` while the first entry's metadata is still
written. -/
theorem C7_get_attribute_value_witness :
    (C_GetAttributeValue c7_session 1
        [⟨CKA_LABEL, false, 0⟩, ⟨CKA_VALUE, false, 0⟩]).1 =
      CK_RV.CKR_ATTRIBUTE_TYPE_INVALID ∧
    (C_GetAttributeValue c7_session 1
        [⟨CKA_LABEL, false, 0⟩, ⟨CKA_VALUE, false, 0⟩]).2 =
      [⟨3, none⟩, ⟨CK_UNAVAILABLE_INFORMATION, none⟩] := by
  have h := C7_get_attribute_value c7_session 1
    [⟨CKA_LABEL, false, 0⟩, ⟨CKA_VALUE, false, 0⟩] (by decide)
  constructor
  · rw [h.2.1]
    decide
  · rw [h.1]
    decide

/-- Helper for C8: with one attribute per type on the object (which the
object builder guarantees), the first-hit scan of `attr_match` agrees
with plain existence. -/
theorem c8_find_match (a : CK_ATTRIBUTE) (l : List CK_ATTRIBUTE)
    (hnd : l.Pairwise (fun b c => b.type ≠ c.type)) :
    (match l.find? (fun b => b.type == a.type && b.ulValueLen == a.ulValueLen) with
     | none => false
     | some b => attr_content_match b a) = true ↔
      ∃ b ∈ l, b.type = a.type ∧ b.ulValueLen = a.ulValueLen ∧
        attr_content_match b a = true := by
  induction l with
  | nil => simp
  | cons b l ih =>
      by_cases hp : (b.type == a.type && b.ulValueLen == a.ulValueLen) = true
      · have hfind : List.find?
            (fun c => c.type == a.type && c.ulValueLen == a.ulValueLen) (b :: l) =
            some b := List.find?_cons_of_pos _ hp
        rw [hfind]
        simp only [Bool.and_eq_true, beq_iff_eq] at hp
        constructor
        · intro hc
          exact ⟨b, List.mem_cons_self _ _, hp.1, hp.2, hc⟩
        · rintro ⟨c, hc, h1, h2, h3⟩
          rcases List.mem_cons.mp hc with rfl | hmem
          · exact h3
          · exact absurd (hp.1.trans h1.symm)
              ((List.pairwise_cons.mp hnd).1 c hmem)
      · have hfind : List.find?
            (fun c => c.type == a.type && c.ulValueLen == a.ulValueLen) (b :: l) =
            List.find?
              (fun c => c.type == a.type && c.ulValueLen == a.ulValueLen) l :=
          List.find?_cons_of_neg _ hp
        rw [hfind]
        rw [ih (List.pairwise_cons.mp hnd).2]
        constructor
        · rintro ⟨c, hc, hx⟩
          exact ⟨c, List.mem_cons_of_mem _ hc, hx⟩
        · rintro ⟨c, hc, h1, h2, h3⟩
          rcases List.mem_cons.mp hc with rfl | hmem
          · exact absurd (by simp [h1, h2]) hp
          · exact ⟨c, hmem, h1, h2, h3⟩

/-- Helper for C8: unfolding of the content comparison. -/
theorem c8_content_iff (b a : CK_ATTRIBUTE) :
    attr_content_match b a = true ↔
      ((b.pValue = none ∧ a.pValue = none) ∨
       ∃ x y, b.pValue = some x ∧ a.pValue = some y ∧
         x.take a.ulValueLen = y.take a.ulValueLen) := by
  unfold attr_content_match
  rcases hb : b.pValue with _ | x <;> rcases ha : a.pValue with _ | y <;> simp

/-- Helper for C8: full characterization of the `C_FindObjects` scan
loop — the cursor only moves forward and stays within the list, at most
`maxcount - rc` handles are produced, the cursor reaches the end when the
quota was not filled, the produced handles are exactly the 1-based
indices of the matching objects passed over, strictly increasing. -/
theorem c8_loop_spec (attrs : List CK_ATTRIBUTE) (maxcount : Nat)
    (rest : List obj_info) (idx rc : Nat) (hmax : rc < maxcount) :
    idx ≤ (find_objects_loop attrs maxcount rest idx rc).2 ∧
    (find_objects_loop attrs maxcount rest idx rc).2 ≤ idx + rest.length ∧
    (find_objects_loop attrs maxcount rest idx rc).1.length + rc ≤ maxcount ∧
    ((find_objects_loop attrs maxcount rest idx rc).1.length + rc < maxcount →
      (find_objects_loop attrs maxcount rest idx rc).2 = idx + rest.length) ∧
    (∀ h : Nat, h ∈ (find_objects_loop attrs maxcount rest idx rc).1 ↔
      (idx < h ∧ h ≤ (find_objects_loop attrs maxcount rest idx rc).2 ∧
       ∃ o, rest[h - 1 - idx]? = some o ∧ search_object o attrs = true)) ∧
    (find_objects_loop attrs maxcount rest idx rc).1.Pairwise (· < ·) := by
  induction rest generalizing idx rc with
  | nil =>
      simp only [find_objects_loop, List.length_nil, Nat.add_zero]
      refine ⟨Nat.le_refl idx, Nat.le_refl idx, by simpa using hmax.le,
              fun _ => by trivial, ?_, by simp⟩
      intro h
      simp only [List.not_mem_nil, false_iff]
      rintro ⟨h1, h2, -⟩
      omega
  | cons obj rest ih =>
      by_cases hs : search_object obj attrs = true
      · by_cases hcap : rc + 1 ≥ maxcount
        · have hres : find_objects_loop attrs maxcount (obj :: rest) idx rc =
              ([idx + 1], idx + 1) := by
            simp [find_objects_loop, hs, hcap]
          rw [hres]
          refine ⟨by omega, by simp, by simp; omega, ?_, ?_, by simp⟩
          · intro hf
            simp only [List.length_singleton] at hf
            omega
          · intro h
            simp only [List.mem_singleton]
            constructor
            · rintro rfl
              refine ⟨by omega, Nat.le_refl _, obj, ?_, hs⟩
              have h0 : idx + 1 - 1 - idx = 0 := by omega
              rw [h0]
              simp
            · rintro ⟨h1, h2, -⟩
              omega
        · have hmax2 : rc + 1 < maxcount := by omega
          obtain ⟨ih1, ih2, ih3, ih4, ih5, ih6⟩ := ih (idx + 1) (rc + 1) hmax2
          have hres : find_objects_loop attrs maxcount (obj :: rest) idx rc =
              ((idx + 1) ::
                 (find_objects_loop attrs maxcount rest (idx + 1) (rc + 1)).1,
               (find_objects_loop attrs maxcount rest (idx + 1) (rc + 1)).2) := by
            simp [find_objects_loop, hs, hcap]
          rw [hres]
          refine ⟨by omega, by simp; omega, by simp at ih3 ⊢; omega, ?_, ?_, ?_⟩
          · intro hf
            simp only [List.length_cons] at hf
            have := ih4 (by omega)
            rw [this]
            simp
            omega
          · intro h
            simp only [List.mem_cons]
            constructor
            · rintro (rfl | hmem)
              · refine ⟨by omega, ih1, obj, ?_, hs⟩
                have h0 : idx + 1 - 1 - idx = 0 := by omega
                rw [h0]
                simp
              · obtain ⟨hh1, hh2, o, ho, hmo⟩ := (ih5 h).mp hmem
                refine ⟨by omega, hh2, o, ?_, hmo⟩
                have hik : h - 1 - idx = (h - 1 - (idx + 1)) + 1 := by omega
                rw [hik, List.getElem?_cons_succ]
                exact ho
            · rintro ⟨hh1, hh2, o, ho, hmo⟩
              by_cases he : h = idx + 1
              · exact Or.inl he
              · right
                apply (ih5 h).mpr
                refine ⟨by omega, hh2, o, ?_, hmo⟩
                have hik : h - 1 - idx = (h - 1 - (idx + 1)) + 1 := by omega
                rw [hik, List.getElem?_cons_succ] at ho
                exact ho
          · rw [List.pairwise_cons]
            exact ⟨fun x hx => ((ih5 x).mp hx).1, ih6⟩
      · obtain ⟨ih1, ih2, ih3, ih4, ih5, ih6⟩ := ih (idx + 1) rc hmax
        have hres : find_objects_loop attrs maxcount (obj :: rest) idx rc =
            find_objects_loop attrs maxcount rest (idx + 1) rc := by
          simp [find_objects_loop, hs]
        rw [hres]
        refine ⟨by omega, by simp; omega, ih3, ?_, ?_, ih6⟩
        · intro hf
          have := ih4 hf
          rw [this]
          simp
          omega
        · intro h
          rw [ih5 h]
          constructor
          · rintro ⟨hh1, hh2, o, ho, hmo⟩
            refine ⟨by omega, hh2, o, ?_, hmo⟩
            have hik : h - 1 - idx = (h - 1 - (idx + 1)) + 1 := by omega
            rw [hik, List.getElem?_cons_succ]
            exact ho
          · rintro ⟨hh1, hh2, o, ho, hmo⟩
            by_cases he : h = idx + 1
            · subst he
              have h0 : idx + 1 - 1 - idx = 0 := by omega
              rw [h0] at ho
              simp only [List.getElem?_cons_zero, Option.some.injEq] at ho
              subst ho
              exact absurd hmo hs
            · refine ⟨by omega, hh2, o, ?_, hmo⟩
              have hik : h - 1 - idx = (h - 1 - (idx + 1)) + 1 := by omega
              rw [hik, List.getElem?_cons_succ] at ho
              exact ho

/-- Claim C8: `C_FindObjects` called with `maxcount = 0` (or a NULL
output array) fails with `CKR_ARGUMENTS_BAD`; the empty template matches
every object; an object matches iff every template attribute occurs in it
with the same type, length and byte-equal value (both-NULL value pointers
also matching), given the builder's one-attribute-per-type shape; and
the scan advances the cursor so that the returned handles are exactly
the matching objects between the old and new cursor, strictly
increasing, the cursor reaches the end of the list whenever the quota
was not exhausted, and a repeated call returns no handle twice. -/
theorem C8_find_objects (se : session) (objPresent : Bool) (maxcount : Nat)
    (hm : 0 < maxcount) (hcur : se.obj_search_index ≤ se.obj_list.length) :
    C_FindObjects se objPresent 0 = (CK_RV.CKR_ARGUMENTS_BAD, [], se) ∧
    (∀ o : obj_info, search_object o [] = true) ∧
    (∀ (o : obj_info) (attrs : List CK_ATTRIBUTE),
      o.attrs.Pairwise (fun b c => b.type ≠ c.type) →
      (search_object o attrs = true ↔
        ∀ a ∈ attrs, ∃ b ∈ o.attrs, b.type = a.type ∧
          b.ulValueLen = a.ulValueLen ∧
          ((b.pValue = none ∧ a.pValue = none) ∨
           ∃ x y, b.pValue = some x ∧ a.pValue = some y ∧
             x.take a.ulValueLen = y.take a.ulValueLen))) ∧
    (C_FindObjects se true maxcount).1 = CK_RV.CKR_OK ∧
    se.obj_search_index ≤ (C_FindObjects se true maxcount).2.2.obj_search_index ∧
    (C_FindObjects se true maxcount).2.2.obj_search_index ≤ se.obj_list.length ∧
    (∀ h : Nat, h ∈ (C_FindObjects se true maxcount).2.1 ↔
      (se.obj_search_index < h ∧
       h ≤ (C_FindObjects se true maxcount).2.2.obj_search_index ∧
       ∃ o, se.obj_list[h - 1]? = some o ∧
         search_object o se.search_attrs = true)) ∧
    (C_FindObjects se true maxcount).2.1.Pairwise (· < ·) ∧
    ((C_FindObjects se true maxcount).2.1.length < maxcount →
      (C_FindObjects se true maxcount).2.2.obj_search_index =
        se.obj_list.length) ∧
    (∀ h, h ∈ (C_FindObjects se true maxcount).2.1 →
      ∀ h', h' ∈ (C_FindObjects (C_FindObjects se true maxcount).2.2 true
          maxcount).2.1 → h ≠ h') := by
  have hC : C_FindObjects se true maxcount =
      (CK_RV.CKR_OK,
       (find_objects_loop se.search_attrs maxcount
         (se.obj_list.drop se.obj_search_index) se.obj_search_index 0).1,
       { se with obj_search_index :=
           (find_objects_loop se.search_attrs maxcount
             (se.obj_list.drop se.obj_search_index) se.obj_search_index 0).2 }) := by
    unfold C_FindObjects
    rw [if_neg (by simp; omega)]
  obtain ⟨s1, s2, s3, s4, s5, s6⟩ := c8_loop_spec se.search_attrs maxcount
    (se.obj_list.drop se.obj_search_index) se.obj_search_index 0 hm
  have hh1 : (C_FindObjects se true maxcount).2.1 =
      (find_objects_loop se.search_attrs maxcount
        (se.obj_list.drop se.obj_search_index) se.obj_search_index 0).1 := by
    rw [hC]
  have hh2 : (C_FindObjects se true maxcount).2.2.obj_search_index =
      (find_objects_loop se.search_attrs maxcount
        (se.obj_list.drop se.obj_search_index) se.obj_search_index 0).2 := by
    rw [hC]
  have hmem : ∀ h : Nat, h ∈ (C_FindObjects se true maxcount).2.1 ↔
      (se.obj_search_index < h ∧
       h ≤ (C_FindObjects se true maxcount).2.2.obj_search_index ∧
       ∃ o, se.obj_list[h - 1]? = some o ∧
         search_object o se.search_attrs = true) := by
    intro h
    rw [hh1, hh2, s5 h]
    constructor
    · rintro ⟨h1, h2, o, ho, hmo⟩
      refine ⟨h1, h2, o, ?_, hmo⟩
      rw [List.getElem?_drop] at ho
      have hix : se.obj_search_index + (h - 1 - se.obj_search_index) = h - 1 := by
        omega
      rw [hix] at ho
      exact ho
    · rintro ⟨h1, h2, o, ho, hmo⟩
      refine ⟨h1, h2, o, ?_, hmo⟩
      rw [List.getElem?_drop]
      have hix : se.obj_search_index + (h - 1 - se.obj_search_index) = h - 1 := by
        omega
      rw [hix]
      exact ho
  refine ⟨by simp [C_FindObjects], fun o => rfl, ?_, by rw [hC], ?_, ?_, hmem,
          ?_, ?_, ?_⟩
  · intro o attrs hnd
    have hma : ∀ a : CK_ATTRIBUTE, attr_match o a = true ↔
        ∃ b ∈ o.attrs, b.type = a.type ∧ b.ulValueLen = a.ulValueLen ∧
          attr_content_match b a = true := by
      intro a
      unfold attr_match
      exact c8_find_match a o.attrs hnd
    unfold search_object
    rw [List.all_eq_true]
    refine forall_congr' fun a => imp_congr_right fun _ => ?_
    refine (hma a).trans ⟨?_, ?_⟩
    · rintro ⟨b, hb, h1, h2, h3⟩
      exact ⟨b, hb, h1, h2, (c8_content_iff b a).mp h3⟩
    · rintro ⟨b, hb, h1, h2, h3⟩
      exact ⟨b, hb, h1, h2, (c8_content_iff b a).mpr h3⟩
  · rw [hh2]
    exact s1
  · rw [hh2]
    rw [List.length_drop] at s2
    omega
  · rw [hh1]
    exact s6
  · intro hlt
    rw [hh1] at hlt
    rw [hh2]
    have := s4 (by omega)
    rw [List.length_drop] at this
    omega
  · intro h hh h' hh'
    have hb1 : h ≤ (C_FindObjects se true maxcount).2.2.obj_search_index :=
      ((hmem h).mp hh).2.1
    obtain ⟨t1, t2, t3, t4, t5, t6⟩ := c8_loop_spec se.search_attrs maxcount
      (se.obj_list.drop (find_objects_loop se.search_attrs maxcount
        (se.obj_list.drop se.obj_search_index) se.obj_search_index 0).2)
      (find_objects_loop se.search_attrs maxcount
        (se.obj_list.drop se.obj_search_index) se.obj_search_index 0).2 0 hm
    have hC2 : C_FindObjects (C_FindObjects se true maxcount).2.2 true
        maxcount =
        (CK_RV.CKR_OK,
         (find_objects_loop se.search_attrs maxcount
           (se.obj_list.drop (find_objects_loop se.search_attrs maxcount
             (se.obj_list.drop se.obj_search_index) se.obj_search_index 0).2)
           (find_objects_loop se.search_attrs maxcount
             (se.obj_list.drop se.obj_search_index) se.obj_search_index 0).2
           0).1,
         { se with obj_search_index :=
             (find_objects_loop se.search_attrs maxcount
               (se.obj_list.drop (find_objects_loop se.search_attrs maxcount
                 (se.obj_list.drop se.obj_search_index)
                 se.obj_search_index 0).2)
               (find_objects_loop se.search_attrs maxcount
                 (se.obj_list.drop se.obj_search_index)
                 se.obj_search_index 0).2 0).2 }) := by
      rw [hC]
      unfold C_FindObjects
      rw [if_neg (by simp; omega)]
    rw [hC2] at hh'
    have hb2 := ((t5 h').mp hh').1
    rw [hh2] at hb1
    omega

/-- Witness for C8: `maxcount = 0` is rejected with `CKR_ARGUMENTS_BAD`
and a real search call succeeds. -/
theorem C8_find_objects_witness :
    C_FindObjects c8_session true 0 = (CK_RV.CKR_ARGUMENTS_BAD, [], c8_session) ∧
    (C_FindObjects c8_session true 1).1 = CK_RV.CKR_OK := by
  have h := C8_find_objects c8_session true 1 (by decide) (by decide)
  exact ⟨h.1, h.2.2.2.1⟩

/-- Witness for C3: a well-formed OAEP request whose parameters match the
map row validates. -/
theorem C3_mech_param_validation_witness :
    (mech_param_validate c3_param_map c3_mech c3_mm).isSome = true := by
  have h := (C3_mech_param_validation c3_param_map c3_mm c3_mech).1 c3_oaep
    rfl rfl
  exact h.mpr (by decide)

end KeychainPKCS11
